import Mathlib

/-!
# Attendance tracker (`script.js`): matcher, ledger, roster and report

A shallow embedding of the class `FacialRecognitionSystem`.  The object `this` is an explicit
`System` value; every method is a function from the state (and the values the method reads from
the page, the clock or the detection model) to the next state.

A JavaScript number is kept by its value (`NaN`, an infinity, or the rational a finite double
is), which decides every comparison.  The results of the arithmetic that depend on rounding, and
the upper-casing of text outside ASCII, are what the platform computes: they are parameters of the
functions that use them.
-/

set_option autoImplicit false

namespace FacialRecognition

/-! ## Data model -/

/-- The flattened landmark coordinates of one face. -/
abbrev Descriptor := List ℚ

/-- One entry of `this.students`. -/
structure Student where
  id : String
  name : String
  grade : String
  section_ : String
  registeredDate : String
  faceDescriptor : Option Descriptor
deriving DecidableEq

/-- One entry of `this.attendance`. -/
structure AttendanceRecord where
  id : Nat
  studentId : String
  date : String
  status : String
  time : String
deriving DecidableEq

/-- A JavaScript number by its value: `NaN`, `-Infinity`, a finite value or `Infinity`.  Every
finite double is a rational; the two zeros have the same value and compare as equal. -/
inductive Number where
  | nan : Number
  | negInfinity : Number
  | finite (value : ℚ) : Number
  | infinity : Number
deriving DecidableEq

namespace Number

/-- The comparison `a < b` of JavaScript: false as soon as one side is `NaN`, otherwise the order
of the values. -/
def lt : Number → Number → Bool
  | negInfinity, finite _ => true
  | negInfinity, infinity => true
  | finite a, finite b => decide (a < b)
  | finite _, infinity => true
  | _, _ => false

/-- The comparison `a <= b` of JavaScript. -/
def le : Number → Number → Bool
  | negInfinity, negInfinity => true
  | negInfinity, finite _ => true
  | negInfinity, infinity => true
  | finite a, finite b => decide (a ≤ b)
  | finite _, infinity => true
  | infinity, infinity => true
  | _, _ => false

end Number

/-- What the platform computes where the result depends on rounding (or, for `**` and
`Math.sqrt`, on the approximation the engine uses): `a - b` for finite `a ≠ b`, `a ** 2` for
finite `a ≠ 0`, `a + b` for finite non-zero `a` and `b`, `Math.sqrt(a)` for finite `a > 0`. -/
structure Arithmetic where
  sub : ℚ → ℚ → Number
  square : ℚ → Number
  add : ℚ → ℚ → Number
  sqrt : ℚ → Number

/-- The operations carried out without rounding (the square root on the squares of rationals).
This is not binary64, which agrees with it only where operands and exact result are doubles.  It
serves to run the model in the examples, whose coordinates are all 0, so that no rounded result
is ever consulted there. -/
def Arithmetic.exact : Arithmetic where
  sub a b := Number.finite (a - b)
  square a := Number.finite (a * a)
  add a b := Number.finite (a + b)
  sqrt a := Number.finite (Rat.sqrt a)

namespace Number

/-- The operator `a - b`: `NaN` when an operand is `NaN` or both are the same infinity, the
infinity that dominates otherwise, `0` for equal finite operands. -/
def sub (arith : Arithmetic) : Number → Number → Number
  | nan, _ => nan
  | _, nan => nan
  | infinity, infinity => nan
  | negInfinity, negInfinity => nan
  | infinity, _ => infinity
  | negInfinity, _ => negInfinity
  | finite _, infinity => negInfinity
  | finite _, negInfinity => infinity
  | finite a, finite b => if a = b then finite 0 else arith.sub a b

/-- The expression `a ** 2`: `NaN` for `NaN`, `Infinity` for both infinities, `0` for zero. -/
def square (arith : Arithmetic) : Number → Number
  | nan => nan
  | negInfinity => infinity
  | infinity => infinity
  | finite a => if a = 0 then finite 0 else arith.square a

/-- The operator `a + b`: `NaN` when an operand is `NaN` or the operands are opposite
infinities, the infinity otherwise, the other operand when one is zero. -/
def add (arith : Arithmetic) : Number → Number → Number
  | nan, _ => nan
  | _, nan => nan
  | infinity, negInfinity => nan
  | negInfinity, infinity => nan
  | infinity, _ => infinity
  | negInfinity, _ => negInfinity
  | finite _, infinity => infinity
  | finite _, negInfinity => negInfinity
  | finite a, finite b =>
    if b = 0 then finite a else if a = 0 then finite b else arith.add a b

/-- `Math.sqrt(a)`: `NaN` for `NaN` and for negative values, `Infinity` for `Infinity`, `0` for
zero. -/
def sqrt (arith : Arithmetic) : Number → Number
  | nan => nan
  | negInfinity => nan
  | infinity => infinity
  | finite a => if a < 0 then nan else if a = 0 then finite 0 else arith.sqrt a

end Number

/-- The value of `desc[i]` as an operand of `-`: reading past the end gives `undefined`, which
the operator converts to `NaN`. -/
def operandAt (desc : Descriptor) (i : Nat) : Number :=
  match desc[i]? with
  | some value => Number.finite value
  | none => Number.nan

/-- `calculateDistance(desc1, desc2)`: the loop runs over the indices of `desc1`. -/
def calculateDistance (arith : Arithmetic) (desc1 desc2 : Descriptor) : Number :=
  Number.sqrt arith <| (List.range desc1.length).foldl
    (fun distance i =>
      Number.add arith distance
        (Number.square arith (Number.sub arith (operandAt desc1 i) (operandAt desc2 i))))
    (Number.finite 0)

/-- The constant `threshold = 500` of `findBestMatch`. -/
def threshold : Number := Number.finite 500

/-- The two loop variables of `findBestMatch`. -/
structure MatchState where
  bestMatch : Option Student
  minDistance : Number

/-- One iteration of the `for (const student of this.students)` loop of `findBestMatch`. -/
def findBestMatch.step (arith : Arithmetic) (descriptor : Descriptor) (acc : MatchState)
    (student : Student) : MatchState :=
  match student.faceDescriptor with
  | some faceDescriptor =>
    let distance := calculateDistance arith descriptor faceDescriptor
    if distance.lt acc.minDistance then ⟨some student, distance⟩ else acc
  | none => acc

/-- The loop of `findBestMatch` over a roster, from given loop variables. -/
def findBestMatch.loop (arith : Arithmetic) (descriptor : Descriptor) (students : List Student)
    (init : MatchState) : MatchState :=
  students.foldl (findBestMatch.step arith descriptor) init

/-- `findBestMatch(descriptor)` over the roster `students`; `none` is `null`. -/
def findBestMatch (arith : Arithmetic) (students : List Student) (descriptor : Descriptor) :
    Option Student :=
  let final := findBestMatch.loop arith descriptor students ⟨none, Number.infinity⟩
  if final.minDistance.lt threshold then final.bestMatch else none

/-- What the loop variables of `findBestMatch` satisfy after the students `pre` were visited. -/
structure findBestMatch.Inv (arith : Arithmetic) (descriptor : Descriptor) (pre : List Student)
    (acc : MatchState) : Prop where
  noneCloser : ∀ t ∈ pre, ∀ e, t.faceDescriptor = some e →
    (calculateDistance arith descriptor e).lt acc.minDistance = false
  unset : acc.bestMatch = none → acc.minDistance = Number.infinity
  number : acc.minDistance ≠ Number.nan
  chosen : ∀ s, acc.bestMatch = some s → ∃ (i : Nat) (d : Descriptor),
    pre[i]? = some s ∧ s.faceDescriptor = some d ∧
    acc.minDistance = calculateDistance arith descriptor d ∧
    ∀ j : Nat, j < i → ∀ (t : Student) e, pre[j]? = some t → t.faceDescriptor = some e →
      (calculateDistance arith descriptor e).le (calculateDistance arith descriptor d) = false

/-! ## The system object -/

/-- What `localStorage` holds under the keys `students` and `attendance`: the collection whose
JSON text was written there last, `none` while the key was never written. -/
structure LocalStorage where
  students : Option (List Student)
  attendance : Option (List AttendanceRecord)
deriving DecidableEq

/-- The fields of a `FacialRecognitionSystem` that the modelled methods read or write.
`isCameraActive` is the property `captureFace` reads; `none` is `undefined`.  `status` is the
message and type of the last `showStatus` call. -/
structure System where
  students : List Student
  attendance : List AttendanceRecord
  storage : LocalStorage
  faceModel : Bool
  registrationElements : Bool
  isMainCameraActive : Bool
  isRegistrationCameraActive : Bool
  isCameraActive : Option Bool
  pendingFaceDescriptor : Option (String × Descriptor)
  currentDate : String
  status : Option (String × String)
deriving DecidableEq

/-- The state the `constructor` builds from the two collections that
`JSON.parse(localStorage.getItem(..)) || []` evaluate to and from the date of the day.  The
constructor assigns `isMainCameraActive` and `isRegistrationCameraActive`; it does not assign
`isCameraActive`, and `pendingFaceDescriptor` is not assigned either. -/
def constructor (storage : LocalStorage) (students : List Student)
    (attendance : List AttendanceRecord) (registrationElements : Bool) (today : String) :
    System where
  students := students
  attendance := attendance
  storage := storage
  faceModel := false
  registrationElements := registrationElements
  isMainCameraActive := false
  isRegistrationCameraActive := false
  isCameraActive := none
  pendingFaceDescriptor := none
  currentDate := today
  status := none

/-- The assignment `this.faceModel = await blazeface.load()` of `loadFaceModel`, or the `catch`
branch when loading fails. -/
def loadFaceModel (self : System) (loaded : Bool) : System :=
  if loaded then { self with faceModel := true }
  else { self with status := some ("Error loading face detection model", "error") }

/-- Truthiness of a property that holds a boolean or is `undefined`. -/
def truthy : Option Bool → Bool
  | some b => b
  | none => false

/-- `showStatus(message, type)`. -/
def showStatus (self : System) (message type : String) : System :=
  { self with status := some (message, type) }

/-- `startMainCamera()`; `granted` tells whether `getUserMedia` resolved. -/
def startMainCamera (self : System) (granted : Bool) : System :=
  if granted then
    showStatus { self with isMainCameraActive := true } "Main camera started successfully" "success"
  else
    showStatus self "Error accessing main camera. Please check permissions." "error"

/-- `stopMainCamera()`. -/
def stopMainCamera (self : System) : System :=
  showStatus { self with isMainCameraActive := false } "Main camera stopped" "info"

/-- `startRegistrationCamera()`; `granted` tells whether `getUserMedia` resolved. -/
def startRegistrationCamera (self : System) (granted : Bool) : System :=
  if !self.registrationElements then self
  else if granted then
    showStatus { self with isRegistrationCameraActive := true } "Registration camera started" "info"
  else
    showStatus self "Error accessing registration camera. Please check permissions." "error"

/-- One detection of the face model: only the landmark points are read. -/
structure Prediction where
  landmarks : List (List ℚ)
deriving DecidableEq

/-- `getFaceDescriptor(videoElement)`.  `estimateFaces` is what the model answers for the frame
(`none`: the call rejects).  The result is `none` when the method throws (also when
`this.faceModel` is `null`), `some none` when it returns `null`. -/
def getFaceDescriptor (self : System) (estimateFaces : Option (List Prediction)) :
    Option (Option Descriptor) :=
  if !self.faceModel then none
  else match estimateFaces with
    | none => none
    | some [] => some none
    | some (prediction :: _) => some (some prediction.landmarks.flatten)

/-! ## Attendance ledger -/

/-- The effect of mutating, in place, the first element that `Array.prototype.find` returns. -/
def modifyFirst {α : Type} (p : α → Bool) (f : α → α) : List α → List α
  | [] => []
  | x :: xs => if p x then f x :: xs else x :: modifyFirst p f xs

/-- `markAttendance(studentId, status)`.  `now` is `Date.now()` and `time` is
`new Date().toLocaleTimeString()` at the call. The method has two parameters; the date is always
`this.currentDate`. -/
def markAttendance (self : System) (studentId status : String) (now : Nat) (time : String) :
    System :=
  let isExisting := fun (record : AttendanceRecord) =>
    decide (record.studentId = studentId) && decide (record.date = self.currentDate)
  let attendance :=
    match self.attendance.find? isExisting with
    | some _ =>
      modifyFirst isExisting (fun record => { record with status := status, time := time })
        self.attendance
    | none =>
      self.attendance ++
        [{ id := now, studentId := studentId, date := self.currentDate, status := status,
           time := time }]
  { self with attendance := attendance,
              storage := { self.storage with attendance := some attendance } }

/-- The values `markManualAttendance` reads from the page: the selected student, the chosen date
and the value of the checked status radio button (`none` when no button is checked). -/
structure ManualForm where
  studentSelect : String
  attendanceDate : String
  status : Option String

/-- `markManualAttendance()`.  The result is `none` when reading `.value` of the missing checked
radio button throws; nothing was changed at that point. -/
def markManualAttendance (self : System) (form : ManualForm) (now : Nat) (time : String) :
    Option System :=
  let studentId := form.studentSelect
  let _date := form.attendanceDate
  match form.status with
  | none => none
  | some status =>
    if studentId = "" then
      some (showStatus self "Please select a student" "error")
    else
      some (showStatus (markAttendance self studentId status now time)
        "Manual attendance marked for selected student" "success")

/-- `captureFace()`. -/
def captureFace (arith : Arithmetic) (self : System)
    (estimateFaces : Option (List Prediction)) (now : Nat) (time : String) : System :=
  if !truthy self.isCameraActive then self
  else
    match getFaceDescriptor self estimateFaces with
    | none => showStatus self "Error capturing face" "error"
    | some none => showStatus self "Could not detect a face. Please try again." "error"
    | some (some descriptor) =>
      match findBestMatch arith self.students descriptor with
      | some student =>
        showStatus (markAttendance self student.id "present" now time)
          ("Attendance marked for " ++ student.name) "success"
      | none => showStatus self "No matching student found." "error"

/-! ## Roster -/

/-- The code points `String.prototype.trim` removes: white space and line terminators. -/
def isTrimmedChar (c : Char) : Bool :=
  decide (c.toNat ∈ [0x9, 0xA, 0xB, 0xC, 0xD, 0x20, 0xA0, 0x1680, 0x2028, 0x2029, 0x202F, 0x205F,
    0x3000, 0xFEFF]) || (decide (0x2000 ≤ c.toNat) && decide (c.toNat ≤ 0x200A))

/-- `String.prototype.trim`. -/
def trim (s : String) : String :=
  ⟨((s.data.dropWhile isTrimmedChar).reverse.dropWhile isTrimmedChar).reverse⟩

/-- The four text inputs `addStudent` reads from the page. -/
structure StudentForm where
  studentName : String
  studentId : String
  studentGrade : String
  studentSection : String

/-- The expression `value || 'N/A'` on a string. -/
def orNA (value : String) : String :=
  if value = "" then "N/A" else value

/-- `addStudent()`; `registeredDate` is `new Date().toISOString()` at the call. -/
def addStudent (self : System) (form : StudentForm) (registeredDate : String) : System :=
  let name := trim form.studentName
  let studentId := trim form.studentId
  let grade := trim form.studentGrade
  let section_ := trim form.studentSection
  if name = "" || studentId = "" then
    showStatus self "Please fill in required fields (Name and Student ID)" "error"
  else if self.students.any (fun student => decide (student.id = studentId)) then
    showStatus self "Student ID already exists" "error"
  else
    let newStudent : Student :=
      { id := studentId, name := name, grade := orNA grade, section_ := orNA section_,
        registeredDate := registeredDate, faceDescriptor := none }
    let captured : Option Descriptor :=
      match self.pendingFaceDescriptor with
      | some pending => if pending.1 = studentId then some pending.2 else none
      | none => none
    let newStudent : Student :=
      match captured with
      | some descriptor => { newStudent with faceDescriptor := some descriptor }
      | none => newStudent
    let pendingFaceDescriptor :=
      match captured with
      | some _ => none
      | none => self.pendingFaceDescriptor
    let students := self.students ++ [newStudent]
    showStatus
      { self with students := students,
                  pendingFaceDescriptor := pendingFaceDescriptor,
                  storage := { self.storage with students := some students } }
      ("Student " ++ name ++ " added successfully") "success"

/-- `deleteStudent(studentId)`; `confirmed` is the answer to the `confirm` dialog. -/
def deleteStudent (self : System) (studentId : String) (confirmed : Bool) : System :=
  if confirmed then
    let students := self.students.filter (fun student => decide (student.id ≠ studentId))
    showStatus
      { self with students := students,
                  storage := { self.storage with students := some students } }
      "Student deleted successfully" "success"
  else self

/-- `registerFace()` up to the point where the timer is set.  The second component is the
student id the timer callback will use, `none` when no timer is set. -/
def registerFace (self : System) (formStudentId : String) (granted : Bool) :
    System × Option String :=
  let studentId := trim formStudentId
  if studentId = "" then
    (showStatus self "Please enter a Student ID before registering a face." "error", none)
  else
    let started :=
      if !self.isRegistrationCameraActive then startRegistrationCamera self granted else self
    (showStatus started "Look at the camera and hold still..." "info", some studentId)

/-- The timer callback of `registerFace`, run on the state at that later moment.  When
`getFaceDescriptor` throws, the callback ends without touching the state. -/
def registerFace.callback (self : System) (studentId : String)
    (estimateFaces : Option (List Prediction)) : System :=
  match getFaceDescriptor self estimateFaces with
  | none => self
  | some none => showStatus self "Could not detect a face. Please try again." "error"
  | some (some descriptor) =>
    let isStudent := fun (s : Student) => decide (s.id = studentId)
    match self.students.find? isStudent with
    | some student =>
      let students :=
        modifyFirst isStudent (fun s => { s with faceDescriptor := some descriptor })
          self.students
      showStatus
        { self with students := students,
                    storage := { self.storage with students := some students } }
        ("Face registered for " ++ student.name ++ ".") "success"
    | none =>
      showStatus { self with pendingFaceDescriptor := some (studentId, descriptor) }
        ("Face captured for ID " ++ studentId ++ ". Add the student to save.") "info"

/-! ## Reporting -/

/-- `getStudentGrade(studentId)`. -/
def getStudentGrade (self : System) (studentId : String) : String :=
  match self.students.find? (fun s => decide (s.id = studentId)) with
  | some student => student.grade
  | none => "N/A"

/-- `String.prototype.toUpperCase`.  On a text of ASCII characters the result is the text with
the letters `a` to `z` replaced by `A` to `Z`; on any other text it is what the platform's
Unicode tables give, the parameter `unicodeUpperCase`. -/
def toUpperCase (unicodeUpperCase : String → String) (s : String) : String :=
  if s.data.all (fun c => decide (c.toNat < 128)) then ⟨s.data.map Char.toUpper⟩
  else unicodeUpperCase s

/-- Upper-casing of the letters `a` to `z` alone.  It stands for the platform's function in the
examples, whose statuses are ASCII and never reach it. -/
def asciiUpperCase (s : String) : String :=
  ⟨s.data.map Char.toUpper⟩

/-- One `<tr>` of the report table: the five cells and the class of the status `<span>`. -/
structure Row where
  id : String
  name : String
  grade : String
  statusClass : String
  status : String
  time : String
deriving DecidableEq

/-- `populateAttendanceTable(attendanceRecords, date)`; `grade` is the value of the grade filter
the method reads from the page.  The parameter `date` is not used by the method. -/
def populateAttendanceTable (unicodeUpperCase : String → String) (self : System)
    (attendanceRecords : List AttendanceRecord) (_date : String) (grade : String) : List Row :=
  let studentsToShow :=
    if grade ≠ "" then self.students.filter (fun student => decide (student.grade = grade))
    else self.students
  studentsToShow.map fun student =>
    match attendanceRecords.find? (fun r => decide (r.studentId = student.id)) with
    | some record =>
      { id := student.id, name := student.name, grade := student.grade,
        statusClass := "status-" ++ record.status,
        status := toUpperCase unicodeUpperCase record.status, time := record.time }
    | none =>
      { id := student.id, name := student.name, grade := student.grade,
        statusClass := "status-absent", status := "ABSENT", time := "-" }

/-- What `generateReport` writes to the page: the three summary numbers and the table. -/
structure Report where
  presentCount : Nat
  absentCount : Nat
  totalCount : Nat
  rows : List Row
deriving DecidableEq

/-- The filter both `generateReport` and `exportToCSV` apply to the ledger. -/
def filteredAttendance (self : System) (date grade : String) : List AttendanceRecord :=
  self.attendance.filter fun record =>
    decide (record.date = date) &&
      (decide (grade = "") || decide (getStudentGrade self record.studentId = grade))

/-- `generateReport()`; `date` and `grade` are the values of the two report inputs. -/
def generateReport (unicodeUpperCase : String → String) (self : System) (date grade : String) :
    Report :=
  let filtered := filteredAttendance self date grade
  let presentCount := (filtered.filter fun record => decide (record.status = "present")).length
  let absentCount := (filtered.filter fun record => decide (record.status = "absent")).length
  let totalStudents :=
    if grade ≠ "" then
      (self.students.filter fun student => decide (student.grade = grade)).length
    else self.students.length
  { presentCount := presentCount, absentCount := absentCount, totalCount := totalStudents,
    rows := populateAttendanceTable unicodeUpperCase self filtered date grade }

/-! ## Export -/

/-- What `downloadFile(content, filename, contentType)` offers as a download. -/
structure Download where
  content : String
  filename : String
  contentType : String
deriving DecidableEq

/-- `exportToCSV()`; `date` and `grade` are the values of the two report inputs.  The result is
the state after the final `showStatus` and the file handed to `downloadFile`. -/
def exportToCSV (unicodeUpperCase : String → String) (self : System) (date grade : String) :
    System × Download :=
  let filtered := filteredAttendance self date grade
  let csvContent := "Student ID,Name,Grade,Section,Status,Time,Date\n"
  let studentsToShow :=
    if grade ≠ "" then self.students.filter (fun student => decide (student.grade = grade))
    else self.students
  let csvContent := studentsToShow.foldl
    (fun csvContent student =>
      let record := filtered.find? (fun r => decide (r.studentId = student.id))
      let status :=
        match record with
        | some record => toUpperCase unicodeUpperCase record.status
        | none => "ABSENT"
      let time :=
        match record with
        | some record => record.time
        | none => "-"
      csvContent ++ ("\"" ++ student.id ++ "\",\"" ++ student.name ++ "\",\"" ++ student.grade
        ++ "\",\"" ++ student.section_ ++ "\",\"" ++ status ++ "\",\"" ++ time ++ "\",\""
        ++ date ++ "\"\n"))
    csvContent
  (showStatus self "CSV export completed successfully" "success",
   { content := csvContent, filename := "attendance_" ++ date ++ ".csv",
     contentType := "text/csv" })

/-! ## Loading the persistent store -/

/-- A JSON value, the result of a successful `JSON.parse`. -/
inductive Json where
  | null : Json
  | bool (b : Bool) : Json
  | number (q : ℚ) : Json
  | string (s : String) : Json
  | array (items : List Json) : Json
  | object (members : List (String × Json)) : Json

/-- Truthiness of a parsed value, as the operator `||` tests it. -/
def Json.truthy : Json → Bool
  | Json.null => false
  | Json.bool b => b
  | Json.number q => decide (q ≠ 0)
  | Json.string s => decide (s ≠ "")
  | Json.array _ => true
  | Json.object _ => true

/-- What `localStorage.getItem(key)` finds: nothing, a text that is not JSON, or the JSON text of
a value. -/
inductive StoredItem where
  | missing : StoredItem
  | invalid : StoredItem
  | json (value : Json) : StoredItem

/-- `JSON.parse(localStorage.getItem(key))`: a missing key gives `null`, which `JSON.parse` reads
as the text `null`; a text that is not JSON makes `JSON.parse` throw a `SyntaxError`. -/
def jsonParseItem : StoredItem → Except String Json
  | StoredItem.missing => Except.ok Json.null
  | StoredItem.invalid => Except.error "SyntaxError"
  | StoredItem.json value => Except.ok value

/-- The expression `JSON.parse(localStorage.getItem(key)) || []` of the constructor. -/
def loadCollection (item : StoredItem) : Except String Json :=
  match jsonParseItem item with
  | Except.error e => Except.error e
  | Except.ok value => Except.ok (if value.truthy then value else Json.array [])

/-- The first two statements of the `constructor`: `this.students`, then `this.attendance`.  An
exception of either ends the construction. -/
def constructor.load (students attendance : StoredItem) : Except String (Json × Json) :=
  match loadCollection students with
  | Except.error e => Except.error e
  | Except.ok loadedStudents =>
    match loadCollection attendance with
    | Except.error e => Except.error e
    | Except.ok loadedAttendance => Except.ok (loadedStudents, loadedAttendance)

/-! ## Notions used to state the properties -/

/-- The pair a ledger is meant to hold at most one record for. -/
def AttendanceRecord.key (record : AttendanceRecord) : String × String :=
  (record.studentId, record.date)

/-- No two records of the ledger share both `studentId` and `date`. -/
def UniqueRecords (ledger : List AttendanceRecord) : Prop :=
  (ledger.map AttendanceRecord.key).Nodup

/-- No two students of the roster share an `id`. -/
def UniqueIds (roster : List Student) : Prop :=
  (roster.map Student.id).Nodup

/-- The records of the ledger for one student on one date. -/
def recordsFor (ledger : List AttendanceRecord) (studentId date : String) :
    List AttendanceRecord :=
  ledger.filter fun record => decide (record.studentId = studentId) && decide (record.date = date)

/-- A record is dangling in a roster when its `studentId` is the id of no student. -/
def Dangling (roster : List Student) (record : AttendanceRecord) : Prop :=
  ∀ s ∈ roster, s.id ≠ record.studentId

/-- The students a grade filter selects: every student when the filter is empty, otherwise the
students whose grade equals the filter. -/
def studentsInFilter (roster : List Student) (grade : String) : List Student :=
  if grade = "" then roster else roster.filter (fun student => decide (student.grade = grade))

/-- One line of CSV text: the fields between double quotes, as they are, separated by commas. -/
def csvLine (fields : List String) : String :=
  "\"" ++ String.intercalate "\",\"" fields ++ "\"\n"

/-! ## Matcher: facts about the comparison and the loop -/

theorem Number.lt_irrefl (a : Number) : a.lt a = false := by
  cases a <;> simp [Number.lt]

theorem Number.lt_trans {a b c : Number} (hab : a.lt b = true) (hbc : b.lt c = true) :
    a.lt c = true := by
  cases a <;> cases b <;> cases c <;> simp_all [Number.lt]
  exact hab.trans hbc

theorem Number.ne_nan_of_lt {a b : Number} (hab : a.lt b = true) : a ≠ Number.nan := by
  cases a <;> simp_all [Number.lt]

theorem Number.lt_of_not_lt_of_lt {e m c : Number} (hm : m ≠ Number.nan)
    (hem : e.lt m = false) (hec : e.lt c = true) : m.lt c = true := by
  cases e <;> cases m <;> cases c <;> simp_all [Number.lt]
  exact hem.trans_lt hec

theorem Number.le_of_not_lt {a b : Number} (ha : a ≠ Number.nan) (hb : b ≠ Number.nan)
    (h : b.lt a = false) : a.le b = true := by
  cases a <;> cases b <;> simp_all [Number.lt, Number.le]

theorem Number.not_le_of_lt_of_not_lt {d e m : Number} (hdm : d.lt m = true)
    (hem : e.lt m = false) : e.le d = false := by
  cases d <;> cases e <;> cases m <;> simp_all [Number.lt, Number.le]
  exact hdm.trans_le hem

theorem findBestMatch.loop_append (arith : Arithmetic) (descriptor : Descriptor)
    (pre : List Student) (x : Student) (init : MatchState) :
    findBestMatch.loop arith descriptor (pre ++ [x]) init
      = findBestMatch.step arith descriptor (findBestMatch.loop arith descriptor pre init) x := by
  simp [findBestMatch.loop, List.foldl_append]

theorem findBestMatch.inv_step (arith : Arithmetic) (descriptor : Descriptor)
    (pre : List Student) (x : Student) (acc : MatchState)
    (h : findBestMatch.Inv arith descriptor pre acc) :
    findBestMatch.Inv arith descriptor (pre ++ [x])
      (findBestMatch.step arith descriptor acc x) := by
  have keep : ∀ s, acc.bestMatch = some s → ∃ (i : Nat) (d : Descriptor),
      (pre ++ [x])[i]? = some s ∧ s.faceDescriptor = some d ∧
      acc.minDistance = calculateDistance arith descriptor d ∧
      ∀ j : Nat, j < i → ∀ (t : Student) e, (pre ++ [x])[j]? = some t →
        t.faceDescriptor = some e →
        (calculateDistance arith descriptor e).le (calculateDistance arith descriptor d)
          = false := by
    intro s hs
    obtain ⟨i, d, hi, hd, hmin, hfirst⟩ := h.chosen s hs
    have hil : i < pre.length := (List.getElem?_eq_some_iff.mp hi).1
    refine ⟨i, d, ?_, hd, hmin, ?_⟩
    · rw [List.getElem?_append_left hil]; exact hi
    · intro j hj t e ht
      rw [List.getElem?_append_left (hj.trans hil)] at ht
      exact hfirst j hj t e ht
  cases hx : x.faceDescriptor with
  | none =>
    have hstep : findBestMatch.step arith descriptor acc x = acc := by
      simp [findBestMatch.step, hx]
    rw [hstep]
    refine ⟨?_, h.unset, h.number, keep⟩
    intro t ht e he
    rcases List.mem_append.mp ht with ht | ht
    · exact h.noneCloser t ht e he
    · rw [List.mem_singleton.mp ht, hx] at he; cases he
  | some fd =>
    by_cases hlt : (calculateDistance arith descriptor fd).lt acc.minDistance = true
    · have hstep : findBestMatch.step arith descriptor acc x
          = ⟨some x, calculateDistance arith descriptor fd⟩ := by
        simp [findBestMatch.step, hx, hlt]
      rw [hstep]
      refine ⟨?_, ?_, Number.ne_nan_of_lt hlt, ?_⟩
      · intro t ht e he
        rcases List.mem_append.mp ht with ht | ht
        · have h1 := h.noneCloser t ht e he
          by_contra hc
          have hc2 : (calculateDistance arith descriptor e).lt
              (calculateDistance arith descriptor fd) = true := by simpa using hc
          rw [Number.lt_trans hc2 hlt] at h1
          cases h1
        · rw [List.mem_singleton.mp ht, hx] at he
          cases he
          exact Number.lt_irrefl _
      · intro hn; cases hn
      · intro s hs
        cases hs
        refine ⟨pre.length, fd, by simp, hx, rfl, ?_⟩
        intro j hj t e ht he
        rw [List.getElem?_append_left hj] at ht
        exact Number.not_le_of_lt_of_not_lt hlt
          (h.noneCloser t (List.getElem?_mem ht) e he)
    · have hnlt : (calculateDistance arith descriptor fd).lt acc.minDistance = false := by
        simpa using hlt
      have hstep : findBestMatch.step arith descriptor acc x = acc := by
        simp [findBestMatch.step, hx, hnlt]
      rw [hstep]
      refine ⟨?_, h.unset, h.number, keep⟩
      intro t ht e he
      rcases List.mem_append.mp ht with ht | ht
      · exact h.noneCloser t ht e he
      · rw [List.mem_singleton.mp ht, hx] at he
        cases he
        exact hnlt

theorem findBestMatch.inv_loop (arith : Arithmetic) (descriptor : Descriptor)
    (students : List Student) :
    findBestMatch.Inv arith descriptor students
      (findBestMatch.loop arith descriptor students ⟨none, Number.infinity⟩) := by
  induction students using List.reverseRecOn with
  | nil =>
    refine ⟨?_, fun _ => rfl, ?_, ?_⟩
    · intro t ht; cases ht
    · intro hn; cases hn
    · intro s hs; cases hs
  | append_singleton pre x ih =>
    rw [findBestMatch.loop_append]
    exact findBestMatch.inv_step arith descriptor pre x _ ih

/-- A probe read against an empty stored descriptor gives `NaN`, whatever the rounding. -/
theorem calculateDistance_zero_empty (arith : Arithmetic) :
    calculateDistance arith [0] [] = Number.nan := by
  simp [calculateDistance, operandAt, Number.sub, Number.square, Number.add, Number.sqrt,
    List.range, List.range.loop]

/-- The probe `[0]` is at distance 0 from the stored descriptor `[0]`, whatever the rounding. -/
theorem calculateDistance_zero_zero (arith : Arithmetic) :
    calculateDistance arith [0] [0] = Number.finite 0 := by
  simp [calculateDistance, operandAt, Number.sub, Number.square, Number.add, Number.sqrt,
    List.range, List.range.loop]

/-! ## Matcher: the claims -/

/-- C1. `findBestMatch` returns a student only if that student's distance to the probe is the
minimum over the students with a stored descriptor (no such student is strictly closer) and is
strictly below the threshold 500; when no student with a descriptor is strictly below 500 (in
particular when the minimum is 500 or more, or no student has a descriptor) it returns `null`;
and when some student with a descriptor is strictly below 500 it does return a student.  The
distances are the values `calculateDistance` returns, whatever the platform's rounding. -/
theorem findBestMatch_threshold (arith : Arithmetic) (students : List Student)
    (descriptor : Descriptor) :
    (∀ s, findBestMatch arith students descriptor = some s →
      ∃ d, s ∈ students ∧ s.faceDescriptor = some d ∧
        (calculateDistance arith descriptor d).lt threshold = true ∧
        ∀ t ∈ students, ∀ e, t.faceDescriptor = some e →
          (calculateDistance arith descriptor e).lt (calculateDistance arith descriptor d)
            = false) ∧
    ((∀ t ∈ students, ∀ e, t.faceDescriptor = some e →
        (calculateDistance arith descriptor e).lt threshold = false) →
      findBestMatch arith students descriptor = none) ∧
    ((∃ t ∈ students, ∃ e, t.faceDescriptor = some e ∧
        (calculateDistance arith descriptor e).lt threshold = true) →
      (findBestMatch arith students descriptor).isSome = true) := by
  have inv := findBestMatch.inv_loop arith descriptor students
  have sound : ∀ s, findBestMatch arith students descriptor = some s →
      ∃ d, s ∈ students ∧ s.faceDescriptor = some d ∧
        (calculateDistance arith descriptor d).lt threshold = true ∧
        ∀ t ∈ students, ∀ e, t.faceDescriptor = some e →
          (calculateDistance arith descriptor e).lt (calculateDistance arith descriptor d)
            = false := by
    intro s hs
    unfold findBestMatch at hs
    simp only at hs
    split at hs
    · next hthr =>
      obtain ⟨i, d, hi, hd, hmin, -⟩ := inv.chosen s hs
      refine ⟨d, List.getElem?_mem hi, hd, hmin ▸ hthr, ?_⟩
      intro t ht e he
      exact hmin ▸ inv.noneCloser t ht e he
    · cases hs
  refine ⟨sound, ?_, ?_⟩
  · intro hall
    cases hres : findBestMatch arith students descriptor with
    | none => rfl
    | some s =>
      obtain ⟨d, hmem, hd, hthr, -⟩ := sound s hres
      rw [hall s hmem d hd] at hthr
      cases hthr
  · rintro ⟨t, ht, e, he, hthr⟩
    have hnc := inv.noneCloser t ht e he
    have hlt := Number.lt_of_not_lt_of_lt inv.number hnc hthr
    cases hbest : (findBestMatch.loop arith descriptor students
        ⟨none, Number.infinity⟩).bestMatch with
    | none =>
      rw [inv.unset hbest] at hlt
      simp [Number.lt, threshold] at hlt
    | some s =>
      unfold findBestMatch
      simp [hlt, hbest]

/-- C1, on the roster of the specification's scenario (one student, no descriptor) and on a
roster whose only student has the probe as descriptor. -/
theorem findBestMatch_threshold_witness :
    findBestMatch Arithmetic.exact [⟨"S1", "Ana", "5", "N/A", "", none⟩] [0, 0] = none ∧
    (findBestMatch Arithmetic.exact [⟨"S2", "Bo", "5", "N/A", "", some [0, 0]⟩]
      [0, 0]).isSome = true :=
  ⟨(findBestMatch_threshold Arithmetic.exact [⟨"S1", "Ana", "5", "N/A", "", none⟩]
      [0, 0]).2.1 (by simp),
   (findBestMatch_threshold Arithmetic.exact [⟨"S2", "Bo", "5", "N/A", "", some [0, 0]⟩]
      [0, 0]).2.2
     ⟨_, List.mem_singleton.mpr rfl, [0, 0], rfl, by
       simp [calculateDistance, operandAt, Number.sub, Number.square, Number.add, Number.sqrt,
         threshold, Number.lt, List.range, List.range.loop]⟩⟩

/-- C2 as stated fails: for the probe `[0]` and the roster of `A`, with descriptor `[0]`, and
`B`, with the empty descriptor, `findBestMatch` returns `A`; the distance of `B` is `NaN`
(`0 - undefined`), so the distance 0 of `A` is not less than or equal to it. -/
theorem findBestMatch_nan_not_le :
    findBestMatch Arithmetic.exact
        [⟨"A", "Ana", "5", "N/A", "", some [0]⟩, ⟨"B", "Bo", "5", "N/A", "", some []⟩] [0]
      = some ⟨"A", "Ana", "5", "N/A", "", some [0]⟩ ∧
    calculateDistance Arithmetic.exact [0] [0] = Number.finite 0 ∧
    calculateDistance Arithmetic.exact [0] [] = Number.nan ∧
    (calculateDistance Arithmetic.exact [0] [0]).le (calculateDistance Arithmetic.exact [0] [])
      = false := by
  have hA := calculateDistance_zero_zero Arithmetic.exact
  have hB := calculateDistance_zero_empty Arithmetic.exact
  refine ⟨?_, hA, hB, ?_⟩
  · simp [findBestMatch, findBestMatch.loop, findBestMatch.step, hA, hB, threshold, Number.lt]
  · rw [hA, hB]
    rfl

/-- C2, amended. When `findBestMatch` returns a student, that student stands at some position
of the roster and has a stored descriptor; no student with a descriptor is strictly closer to
the probe, and its distance is less than or equal to the distance of every student with a
descriptor whose distance is not `NaN`; every student at an earlier position that has a
descriptor is strictly farther or at distance `NaN`, so the returned student is the first one
that attains the minimum. -/
theorem findBestMatch_first_minimum (arith : Arithmetic) (students : List Student)
    (descriptor : Descriptor) (s : Student)
    (h : findBestMatch arith students descriptor = some s) :
    ∃ (i : Nat) (d : Descriptor), students[i]? = some s ∧ s.faceDescriptor = some d ∧
      (∀ t ∈ students, ∀ e, t.faceDescriptor = some e →
        (calculateDistance arith descriptor e).lt (calculateDistance arith descriptor d)
          = false ∧
        (calculateDistance arith descriptor e ≠ Number.nan →
          (calculateDistance arith descriptor d).le (calculateDistance arith descriptor e)
            = true)) ∧
      (∀ j : Nat, j < i → ∀ (t : Student) e, students[j]? = some t →
        t.faceDescriptor = some e →
        (calculateDistance arith descriptor e).le (calculateDistance arith descriptor d)
          = false) := by
  have inv := findBestMatch.inv_loop arith descriptor students
  unfold findBestMatch at h
  simp only at h
  split at h
  · obtain ⟨i, d, hi, hd, hmin, hfirst⟩ := inv.chosen s h
    refine ⟨i, d, hi, hd, ?_, hfirst⟩
    intro t ht e he
    have hnc : (calculateDistance arith descriptor e).lt (calculateDistance arith descriptor d)
        = false := hmin ▸ inv.noneCloser t ht e he
    exact ⟨hnc, fun hnan => Number.le_of_not_lt (hmin ▸ inv.number) hnan hnc⟩
  · cases h

/-- C2 amended, on a roster where two students are at the same distance from the probe: the
earlier one is returned. -/
theorem findBestMatch_first_minimum_witness :
    findBestMatch Arithmetic.exact [⟨"S1", "Ana", "5", "N/A", "", none⟩,
        ⟨"S2", "Bo", "5", "N/A", "", some [0]⟩, ⟨"S3", "Cy", "5", "N/A", "", some [0]⟩] [0]
      = some ⟨"S2", "Bo", "5", "N/A", "", some [0]⟩ ∧
    ∃ (i : Nat) (d : Descriptor),
      [(⟨"S1", "Ana", "5", "N/A", "", none⟩ : Student), ⟨"S2", "Bo", "5", "N/A", "", some [0]⟩,
        ⟨"S3", "Cy", "5", "N/A", "", some [0]⟩][i]?
          = some ⟨"S2", "Bo", "5", "N/A", "", some [0]⟩ ∧
      (⟨"S2", "Bo", "5", "N/A", "", some [0]⟩ : Student).faceDescriptor = some d ∧
      (∀ t ∈ [(⟨"S1", "Ana", "5", "N/A", "", none⟩ : Student),
          ⟨"S2", "Bo", "5", "N/A", "", some [0]⟩, ⟨"S3", "Cy", "5", "N/A", "", some [0]⟩],
        ∀ e, t.faceDescriptor = some e →
        (calculateDistance Arithmetic.exact [0] e).lt (calculateDistance Arithmetic.exact [0] d)
          = false ∧
        (calculateDistance Arithmetic.exact [0] e ≠ Number.nan →
          (calculateDistance Arithmetic.exact [0] d).le (calculateDistance Arithmetic.exact [0] e)
            = true)) ∧
      (∀ j : Nat, j < i → ∀ (t : Student) e,
        [(⟨"S1", "Ana", "5", "N/A", "", none⟩ : Student), ⟨"S2", "Bo", "5", "N/A", "", some [0]⟩,
          ⟨"S3", "Cy", "5", "N/A", "", some [0]⟩][j]? = some t →
        t.faceDescriptor = some e →
        (calculateDistance Arithmetic.exact [0] e).le (calculateDistance Arithmetic.exact [0] d)
          = false) :=
  have h : findBestMatch Arithmetic.exact [⟨"S1", "Ana", "5", "N/A", "", none⟩,
        ⟨"S2", "Bo", "5", "N/A", "", some [0]⟩, ⟨"S3", "Cy", "5", "N/A", "", some [0]⟩] [0]
      = some ⟨"S2", "Bo", "5", "N/A", "", some [0]⟩ := by
    simp [findBestMatch, findBestMatch.loop, findBestMatch.step, calculateDistance_zero_zero,
      threshold, Number.lt]
  ⟨h, findBestMatch_first_minimum _ _ _ _ h⟩

/-! ## Ledger: facts about `modifyFirst` and `markAttendance` -/

section ModifyFirst

variable {α : Type} (p : α → Bool) (f : α → α)

theorem modifyFirst_length (l : List α) : (modifyFirst p f l).length = l.length := by
  induction l with
  | nil => rfl
  | cons x xs ih =>
    by_cases hx : p x = true <;> simp [modifyFirst, hx, ih]

theorem map_modifyFirst {β : Type} (g : α → β) (hg : ∀ x, g (f x) = g x) (l : List α) :
    (modifyFirst p f l).map g = l.map g := by
  induction l with
  | nil => rfl
  | cons x xs ih =>
    by_cases hx : p x = true <;> simp [modifyFirst, hx, ih, hg]

theorem filter_modifyFirst (hp : ∀ x, p x = true → p (f x) = true) (l : List α) :
    (modifyFirst p f l).filter p =
      match l.filter p with
      | [] => []
      | x :: rest => f x :: rest := by
  induction l with
  | nil => rfl
  | cons x xs ih =>
    by_cases hx : p x = true
    · simp [modifyFirst, hx, hp x hx]
    · simp [modifyFirst, hx, ih]

theorem getElem?_modifyFirst_of_not (l : List α) (i : Nat) (r : α) (h : l[i]? = some r)
    (hr : p r = false) : (modifyFirst p f l)[i]? = some r := by
  induction l generalizing i with
  | nil => simp at h
  | cons x xs ih =>
    by_cases hx : p x = true
    · cases i with
      | zero =>
        simp at h
        rw [h, hr] at hx
        cases hx
      | succ n => simpa [modifyFirst, hx] using h
    · cases i with
      | zero => simpa [modifyFirst, hx] using h
      | succ n =>
        simp only [modifyFirst, hx, List.getElem?_cons_succ] at h ⊢
        simpa using ih n h

theorem getElem?_of_modifyFirst (hp : ∀ x, p x = true → p (f x) = true) (l : List α) (i : Nat)
    (r : α) (h : (modifyFirst p f l)[i]? = some r) (hr : p r = false) : l[i]? = some r := by
  induction l generalizing i with
  | nil => simp [modifyFirst] at h
  | cons x xs ih =>
    by_cases hx : p x = true
    · cases i with
      | zero =>
        simp [modifyFirst, hx] at h
        rw [← h, hp x hx] at hr
        cases hr
      | succ n => simpa [modifyFirst, hx] using h
    · cases i with
      | zero => simpa [modifyFirst, hx] using h
      | succ n =>
        simp only [modifyFirst, hx, List.getElem?_cons_succ] at h ⊢
        simp only [Bool.false_eq_true, ↓reduceIte, List.getElem?_cons_succ] at h
        exact ih n h

end ModifyFirst

theorem markAttendance_currentDate (self : System) (studentId status : String) (now : Nat)
    (time : String) :
    (markAttendance self studentId status now time).currentDate = self.currentDate := rfl

theorem markAttendance_students (self : System) (studentId status : String) (now : Nat)
    (time : String) :
    (markAttendance self studentId status now time).students = self.students := rfl

/-- The ledger after `markAttendance`, by the two branches of the method. -/
theorem markAttendance_attendance (self : System) (studentId status : String) (now : Nat)
    (time : String) :
    (markAttendance self studentId status now time).attendance =
      match recordsFor self.attendance studentId self.currentDate with
      | [] => self.attendance ++
          [{ id := now, studentId := studentId, date := self.currentDate, status := status,
             time := time }]
      | _ :: _ =>
        modifyFirst
          (fun record => decide (record.studentId = studentId) &&
            decide (record.date = self.currentDate))
          (fun record => { record with status := status, time := time }) self.attendance := by
  unfold markAttendance recordsFor
  cases hfind : self.attendance.find? (fun record =>
      decide (record.studentId = studentId) && decide (record.date = self.currentDate)) with
  | none =>
    have hnil : self.attendance.filter (fun record =>
        decide (record.studentId = studentId) && decide (record.date = self.currentDate)) = [] := by
      rw [List.filter_eq_nil_iff]
      intro a ha
      exact List.find?_eq_none.mp hfind a ha
    simp only [hfind, hnil]
  | some x =>
    have hmem : x ∈ self.attendance.filter (fun record =>
        decide (record.studentId = studentId) && decide (record.date = self.currentDate)) :=
      List.mem_filter.mpr ⟨List.mem_of_find?_eq_some hfind, by simpa using List.find?_some hfind⟩
    cases hfil : self.attendance.filter (fun record =>
        decide (record.studentId = studentId) && decide (record.date = self.currentDate)) with
    | nil => rw [hfil] at hmem; cases hmem
    | cons y ys => simp only [hfind]

theorem recordsFor_length_le_one (ledger : List AttendanceRecord) (studentId date : String)
    (h : UniqueRecords ledger) : (recordsFor ledger studentId date).length ≤ 1 := by
  induction ledger with
  | nil => simp [recordsFor]
  | cons x xs ih =>
    have hnd : x.key ∉ xs.map AttendanceRecord.key ∧ UniqueRecords xs := by
      simpa [UniqueRecords] using h
    by_cases hx : x.studentId = studentId ∧ x.date = date
    · have hnil : recordsFor xs studentId date = [] := by
        unfold recordsFor
        rw [List.filter_eq_nil_iff]
        intro a ha hpa
        simp only [Bool.and_eq_true, decide_eq_true_eq] at hpa
        apply hnd.1
        refine List.mem_map.mpr ⟨a, ha, ?_⟩
        simp [AttendanceRecord.key, hpa.1, hpa.2, hx.1, hx.2]
      have hcons : recordsFor (x :: xs) studentId date = x :: recordsFor xs studentId date := by
        simp [recordsFor, hx.1, hx.2]
      rw [hcons, hnil]
      simp
    · have hcons : recordsFor (x :: xs) studentId date = recordsFor xs studentId date := by
        unfold recordsFor
        rw [List.filter_cons_of_neg]
        simpa using hx
      rw [hcons]
      exact ih hnd.2

/-- After one call, the records for the student on the current date: the head of the old ones
overwritten, or the appended record. -/
theorem recordsFor_markAttendance (self : System) (studentId status : String) (now : Nat)
    (time : String) :
    recordsFor (markAttendance self studentId status now time).attendance studentId
        self.currentDate =
      match recordsFor self.attendance studentId self.currentDate with
      | [] => [{ id := now, studentId := studentId, date := self.currentDate, status := status,
                 time := time }]
      | x :: rest => { x with status := status, time := time } :: rest := by
  rw [markAttendance_attendance]
  cases hrec : recordsFor self.attendance studentId self.currentDate with
  | nil =>
    simp only
    unfold recordsFor at hrec ⊢
    rw [List.filter_append, hrec]
    simp
  | cons y ys =>
    simp only
    unfold recordsFor at hrec ⊢
    rw [filter_modifyFirst _ _ (fun x hx => by simpa using hx), hrec]

theorem uniqueRecords_markAttendance (self : System) (studentId status : String) (now : Nat)
    (time : String) (h : UniqueRecords self.attendance) :
    UniqueRecords (markAttendance self studentId status now time).attendance := by
  rw [markAttendance_attendance]
  cases hrec : recordsFor self.attendance studentId self.currentDate with
  | nil =>
    simp only
    unfold UniqueRecords at h ⊢
    rw [List.map_append, List.nodup_append]
    refine ⟨h, by simp, ?_⟩
    intro k hk hk2
    obtain ⟨a, ha, rfl⟩ := List.mem_map.mp hk
    simp only [List.map_cons, List.map_nil, List.mem_singleton, AttendanceRecord.key,
      Prod.mk.injEq] at hk2
    have hmem : a ∈ recordsFor self.attendance studentId self.currentDate := by
      unfold recordsFor
      exact List.mem_filter.mpr ⟨ha, by simp [hk2.1, hk2.2]⟩
    rw [hrec] at hmem
    cases hmem
  | cons y ys =>
    simp only
    unfold UniqueRecords at h ⊢
    rw [map_modifyFirst]
    · exact h
    · intro x; rfl

/-! ## Ledger: the claims -/

/-- C3. On a ledger with at most one record per (studentId, date), `markAttendance(studentId, s1)`
followed by `markAttendance(studentId, s2)` leaves exactly one record for the student on the
current date, and it carries the status `s2` and the time of the second call. -/
theorem markAttendance_twice (self : System) (studentId s1 s2 : String) (now1 now2 : Nat)
    (time1 time2 : String) (h : UniqueRecords self.attendance) :
    ∃ r, recordsFor
        (markAttendance (markAttendance self studentId s1 now1 time1) studentId s2 now2
          time2).attendance studentId self.currentDate = [r] ∧
      r.studentId = studentId ∧ r.date = self.currentDate ∧ r.status = s2 ∧ r.time = time2 := by
  have hlen := recordsFor_length_le_one self.attendance studentId self.currentDate h
  have hfirst := recordsFor_markAttendance self studentId s1 now1 time1
  have hsecond := recordsFor_markAttendance (markAttendance self studentId s1 now1 time1)
    studentId s2 now2 time2
  rw [markAttendance_currentDate] at hsecond
  cases hrec : recordsFor self.attendance studentId self.currentDate with
  | nil =>
    rw [hrec] at hfirst
    simp only at hfirst
    rw [hfirst] at hsecond
    exact ⟨_, hsecond, rfl, rfl, rfl, rfl⟩
  | cons x rest =>
    have hrest : rest = [] := by
      rw [hrec] at hlen
      simpa using hlen
    subst hrest
    have hx : x ∈ recordsFor self.attendance studentId self.currentDate := by
      rw [hrec]; exact List.mem_singleton.mpr rfl
    have hkey : x.studentId = studentId ∧ x.date = self.currentDate := by
      simpa [recordsFor] using (List.mem_filter.mp hx).2
    rw [hrec] at hfirst
    simp only at hfirst
    rw [hfirst] at hsecond
    exact ⟨_, hsecond, hkey.1, hkey.2, rfl, rfl⟩

/-- C3, on an empty ledger: two calls for `S1` leave the single record of the second call. -/
theorem markAttendance_twice_witness :
    UniqueRecords (constructor ⟨none, none⟩ [] [] true "2024-01-01").attendance ∧
    ∃ r, recordsFor
        (markAttendance (markAttendance (constructor ⟨none, none⟩ [] [] true "2024-01-01")
          "S1" "present" 1 "09:00") "S1" "absent" 2 "09:05").attendance "S1" "2024-01-01" = [r] ∧
      r.studentId = "S1" ∧ r.date = "2024-01-01" ∧ r.status = "absent" ∧ r.time = "09:05" :=
  ⟨List.nodup_nil,
   markAttendance_twice (constructor ⟨none, none⟩ [] [] true "2024-01-01") "S1" "present" "absent"
     1 2 "09:00" "09:05" List.nodup_nil⟩

/-- C4 (the code departs from the claim). The date chosen on the manual attendance form is read
and dropped: with current date 2024-06-01, marking `S1` present for 2024-01-01 appends a record
dated 2024-06-01 and leaves no record for 2024-01-01. -/
theorem markManualAttendance_drops_date :
    (markManualAttendance (constructor ⟨none, none⟩ [] [] true "2024-06-01")
        ⟨"S1", "2024-01-01", some "present"⟩ 17 "10:00").map System.attendance
      = some [⟨17, "S1", "2024-06-01", "present", "10:00"⟩] ∧
    (markManualAttendance (constructor ⟨none, none⟩ [] [] true "2024-06-01")
        ⟨"S1", "2024-01-01", some "present"⟩ 17 "10:00").map
        (fun after => recordsFor after.attendance "S1" "2024-01-01")
      = some [] := by
  decide

/-- C7. `markAttendance` keeps the ledger free of two records with the same (studentId, date);
every record for another (studentId, date) stays at its position unchanged, no such record
appears, and the ledger grows by at most one record. -/
theorem markAttendance_invariant (self : System) (studentId status : String) (now : Nat)
    (time : String) (h : UniqueRecords self.attendance) :
    UniqueRecords (markAttendance self studentId status now time).attendance ∧
    (∀ (i : Nat) (r : AttendanceRecord), self.attendance[i]? = some r →
      ¬ (r.studentId = studentId ∧ r.date = self.currentDate) →
      (markAttendance self studentId status now time).attendance[i]? = some r) ∧
    (∀ (i : Nat) (r : AttendanceRecord),
      (markAttendance self studentId status now time).attendance[i]? = some r →
      ¬ (r.studentId = studentId ∧ r.date = self.currentDate) →
      self.attendance[i]? = some r) ∧
    self.attendance.length ≤ (markAttendance self studentId status now time).attendance.length ∧
    (markAttendance self studentId status now time).attendance.length
      ≤ self.attendance.length + 1 := by
  refine ⟨uniqueRecords_markAttendance self studentId status now time h, ?_⟩
  rw [markAttendance_attendance]
  cases hrec : recordsFor self.attendance studentId self.currentDate with
  | nil =>
    simp only
    refine ⟨?_, ?_, by simp, by simp⟩
    · intro i r hi _
      rw [List.getElem?_append_left (List.getElem?_eq_some_iff.mp hi).1]
      exact hi
    · intro i r hi hr
      by_cases hlt : i < self.attendance.length
      · rw [List.getElem?_append_left hlt] at hi
        exact hi
      · rw [List.getElem?_append_right (not_lt.mp hlt)] at hi
        have hmem := List.getElem?_mem hi
        rw [List.mem_singleton] at hmem
        subst hmem
        exact absurd ⟨rfl, rfl⟩ hr
  | cons y ys =>
    simp only
    refine ⟨?_, ?_, by simp [modifyFirst_length], by simp [modifyFirst_length]⟩
    · intro i r hi hr
      exact getElem?_modifyFirst_of_not _ _ _ i r hi (by simpa using hr)
    · intro i r hi hr
      exact getElem?_of_modifyFirst _ _ (fun x hx => by simpa using hx) _ i r hi
        (by simpa using hr)

/-- C7, on a ledger that already holds the record of `S1` for the current date and a record of
another day. -/
theorem markAttendance_invariant_witness :
    UniqueRecords [⟨1, "S1", "2024-01-01", "absent", "08:00"⟩,
        ⟨2, "S1", "2023-12-31", "present", "08:00"⟩] ∧ 
    (markAttendance (constructor ⟨none, none⟩ []
        [⟨1, "S1", "2024-01-01", "absent", "08:00"⟩, ⟨2, "S1", "2023-12-31", "present", "08:00"⟩]
        true "2024-01-01") "S1" "present" 3 "09:00").attendance.length ≤ 2 + 1 :=
  have h : UniqueRecords [⟨1, "S1", "2024-01-01", "absent", "08:00"⟩,
      ⟨2, "S1", "2023-12-31", "present", "08:00"⟩] := by
    unfold UniqueRecords
    decide
  ⟨h, (markAttendance_invariant (constructor ⟨none, none⟩ []
        [⟨1, "S1", "2024-01-01", "absent", "08:00"⟩, ⟨2, "S1", "2023-12-31", "present", "08:00"⟩]
        true "2024-01-01") "S1" "present" 3 "09:00" h).2.2.2.2⟩

/-! ## Roster: the claims -/

theorem addStudent_of_blank (self : System) (form : StudentForm) (registeredDate : String)
    (h : trim form.studentName = "" ∨ trim form.studentId = "") :
    addStudent self form registeredDate =
      showStatus self "Please fill in required fields (Name and Student ID)" "error" := by
  unfold addStudent
  simp only
  rw [if_pos (by simpa using h)]

theorem addStudent_of_duplicate (self : System) (form : StudentForm) (registeredDate : String)
    (hname : trim form.studentName ≠ "") (hid : trim form.studentId ≠ "")
    (hdup : ∃ s ∈ self.students, s.id = trim form.studentId) :
    addStudent self form registeredDate = showStatus self "Student ID already exists" "error" := by
  unfold addStudent
  simp only
  rw [if_neg (by simp [hname, hid]), if_pos (by simpa using hdup)]

/-- The roster after a call of `addStudent` that passes both checks: one student appended, with
the trimmed id of the form. -/
theorem addStudent_of_fresh (self : System) (form : StudentForm) (registeredDate : String)
    (hname : trim form.studentName ≠ "") (hid : trim form.studentId ≠ "")
    (hfresh : ∀ s ∈ self.students, s.id ≠ trim form.studentId) :
    ∃ newStudent : Student, newStudent.id = trim form.studentId ∧
      (addStudent self form registeredDate).students = self.students ++ [newStudent] := by
  unfold addStudent
  simp only
  rw [if_neg (by simp [hname, hid]), if_neg (by simpa using hfresh)]
  cases hpend : self.pendingFaceDescriptor with
  | none => exact ⟨_, rfl, rfl⟩
  | some pending =>
    by_cases hp : pending.1 = trim form.studentId
    · simp only [hp, if_true]
      exact ⟨_, rfl, rfl⟩
    · simp only [hp, if_false]
      exact ⟨_, rfl, rfl⟩

/-- C5 as stated fails: with a blank name, a form that repeats the id `S1` is answered with the
required-fields message, not with the duplicate-id message. -/
theorem addStudent_blank_name_repeated_id :
    (∃ s ∈ (constructor ⟨none, none⟩ [⟨"S1", "Ana", "5", "N/A", "", none⟩] [] true
        "2024-01-01").students, s.id = trim (StudentForm.mk "  " "S1" "" "").studentId) ∧
    (addStudent (constructor ⟨none, none⟩ [⟨"S1", "Ana", "5", "N/A", "", none⟩] [] true
        "2024-01-01") ⟨"  ", "S1", "", ""⟩ "2024-01-01T00:00:00.000Z").status
      = some ("Please fill in required fields (Name and Student ID)", "error") ∧
    (addStudent (constructor ⟨none, none⟩ [⟨"S1", "Ana", "5", "N/A", "", none⟩] [] true
        "2024-01-01") ⟨"  ", "S1", "", ""⟩ "2024-01-01T00:00:00.000Z").status
      ≠ some ("Student ID already exists", "error") := by
  decide

/-- C5, amended. When the trimmed id of the form is the id of a student of the roster,
`addStudent` changes neither the roster nor the stored students collection; it signals
`Student ID already exists` when the trimmed name and the trimmed id are both non-empty, and the
required-fields error otherwise. -/
theorem addStudent_duplicate (self : System) (form : StudentForm) (registeredDate : String)
    (hdup : ∃ s ∈ self.students, s.id = trim form.studentId) :
    (addStudent self form registeredDate).students = self.students ∧
    (addStudent self form registeredDate).storage = self.storage ∧
    (trim form.studentName ≠ "" → trim form.studentId ≠ "" →
      (addStudent self form registeredDate).status
        = some ("Student ID already exists", "error")) ∧
    (trim form.studentName = "" ∨ trim form.studentId = "" →
      (addStudent self form registeredDate).status
        = some ("Please fill in required fields (Name and Student ID)", "error")) := by
  by_cases hblank : trim form.studentName = "" ∨ trim form.studentId = ""
  · rw [addStudent_of_blank self form registeredDate hblank]
    refine ⟨rfl, rfl, ?_, fun _ => rfl⟩
    intro hname hid
    rcases hblank with hb | hb
    · exact absurd hb hname
    · exact absurd hb hid
  · have hname : trim form.studentName ≠ "" := fun hb => hblank (Or.inl hb)
    have hid : trim form.studentId ≠ "" := fun hb => hblank (Or.inr hb)
    rw [addStudent_of_duplicate self form registeredDate hname hid hdup]
    exact ⟨rfl, rfl, fun _ _ => rfl, fun hb => absurd hb hblank⟩

/-- C5 amended, on a roster that holds `S1` and a form that repeats that id with a name. -/
theorem addStudent_duplicate_witness :
    (∃ s ∈ (constructor ⟨none, none⟩ [⟨"S1", "Ana", "5", "N/A", "", none⟩] [] true
        "2024-01-01").students, s.id = trim (StudentForm.mk " Bo " " S1 " "" "").studentId) ∧
    (addStudent (constructor ⟨none, none⟩ [⟨"S1", "Ana", "5", "N/A", "", none⟩] [] true
        "2024-01-01") ⟨" Bo ", " S1 ", "", ""⟩ "2024-01-01T00:00:00.000Z").students
      = [⟨"S1", "Ana", "5", "N/A", "", none⟩] ∧
    (addStudent (constructor ⟨none, none⟩ [⟨"S1", "Ana", "5", "N/A", "", none⟩] [] true
        "2024-01-01") ⟨" Bo ", " S1 ", "", ""⟩ "2024-01-01T00:00:00.000Z").status
      = some ("Student ID already exists", "error") :=
  have hdup : ∃ s ∈ (constructor ⟨none, none⟩ [⟨"S1", "Ana", "5", "N/A", "", none⟩] [] true
      "2024-01-01").students, s.id = trim (StudentForm.mk " Bo " " S1 " "" "").studentId := by
    decide
  ⟨hdup,
   (addStudent_duplicate _ ⟨" Bo ", " S1 ", "", ""⟩ "2024-01-01T00:00:00.000Z" hdup).1,
   (addStudent_duplicate _ ⟨" Bo ", " S1 ", "", ""⟩ "2024-01-01T00:00:00.000Z" hdup).2.2.1
     (by decide) (by decide)⟩

theorem uniqueIds_addStudent (self : System) (form : StudentForm) (registeredDate : String)
    (h : UniqueIds self.students) : UniqueIds (addStudent self form registeredDate).students := by
  by_cases hblank : trim form.studentName = "" ∨ trim form.studentId = ""
  · rw [addStudent_of_blank self form registeredDate hblank]
    exact h
  · have hname : trim form.studentName ≠ "" := fun hb => hblank (Or.inl hb)
    have hid : trim form.studentId ≠ "" := fun hb => hblank (Or.inr hb)
    by_cases hdup : ∃ s ∈ self.students, s.id = trim form.studentId
    · rw [addStudent_of_duplicate self form registeredDate hname hid hdup]
      exact h
    · have hfresh : ∀ s ∈ self.students, s.id ≠ trim form.studentId :=
        fun s hs heq => hdup ⟨s, hs, heq⟩
      obtain ⟨newStudent, hnew, hstudents⟩ :=
        addStudent_of_fresh self form registeredDate hname hid hfresh
      rw [hstudents]
      unfold UniqueIds at h ⊢
      rw [List.map_append, List.nodup_append]
      refine ⟨h, by simp, ?_⟩
      intro k hk hk2
      obtain ⟨a, ha, rfl⟩ := List.mem_map.mp hk
      simp only [List.map_cons, List.map_nil, List.mem_singleton] at hk2
      exact hfresh a ha (hk2.trans hnew)

theorem uniqueIds_deleteStudent (self : System) (studentId : String) (confirmed : Bool)
    (h : UniqueIds self.students) :
    UniqueIds (deleteStudent self studentId confirmed).students := by
  unfold deleteStudent
  cases confirmed with
  | false => exact h
  | true =>
    simp only [if_true]
    exact List.Nodup.sublist (List.Sublist.map _ (List.filter_sublist _)) h

theorem uniqueIds_registerFace_callback (self : System) (studentId : String)
    (estimateFaces : Option (List Prediction)) (h : UniqueIds self.students) :
    UniqueIds (registerFace.callback self studentId estimateFaces).students := by
  unfold registerFace.callback
  cases getFaceDescriptor self estimateFaces with
  | none => exact h
  | some result =>
    cases result with
    | none => exact h
    | some descriptor =>
      simp only
      cases self.students.find? (fun s => decide (s.id = studentId)) with
      | none => exact h
      | some student =>
        simp only
        unfold UniqueIds showStatus
        simp only
        rw [map_modifyFirst]
        · exact h
        · intro x; rfl

theorem registerFace_students (self : System) (formStudentId : String) (granted : Bool) :
    (registerFace self formStudentId granted).1.students = self.students := by
  unfold registerFace startRegistrationCamera showStatus
  simp only
  split_ifs <;> rfl

/-- C6. If no two students share an id, the same holds after `addStudent` with any form, after
`deleteStudent` with any id and any answer to the confirmation, after `registerFace` up to its
timer, and after the timer callback of `registerFace` has stored the descriptor. -/
theorem uniqueIds_preserved (self : System) (form : StudentForm) (registeredDate : String)
    (studentId : String) (confirmed : Bool) (formStudentId : String) (granted : Bool)
    (estimateFaces : Option (List Prediction)) (h : UniqueIds self.students) :
    UniqueIds (addStudent self form registeredDate).students ∧
    UniqueIds (deleteStudent self studentId confirmed).students ∧
    UniqueIds (registerFace self formStudentId granted).1.students ∧
    UniqueIds (registerFace.callback self studentId estimateFaces).students :=
  ⟨uniqueIds_addStudent self form registeredDate h,
   uniqueIds_deleteStudent self studentId confirmed h,
   (registerFace_students self formStudentId granted).symm ▸ h,
   uniqueIds_registerFace_callback self studentId estimateFaces h⟩

/-- C6, on the roster that holds `S1` alone: a form for `S2`, deletion of `S1`, and a face
registered for `S1`. -/
theorem uniqueIds_preserved_witness :
    UniqueIds [⟨"S1", "Ana", "5", "N/A", "", none⟩] ∧
    UniqueIds (addStudent (loadFaceModel (constructor ⟨none, none⟩
      [⟨"S1", "Ana", "5", "N/A", "", none⟩] [] true "2024-01-01") true)
      ⟨"Bo", "S2", "5", ""⟩ "2024-01-01T00:00:00.000Z").students ∧
    UniqueIds (deleteStudent (loadFaceModel (constructor ⟨none, none⟩
      [⟨"S1", "Ana", "5", "N/A", "", none⟩] [] true "2024-01-01") true) "S1" true).students ∧
    UniqueIds (registerFace (loadFaceModel (constructor ⟨none, none⟩
      [⟨"S1", "Ana", "5", "N/A", "", none⟩] [] true "2024-01-01") true) "S1" true).1.students ∧
    UniqueIds (registerFace.callback (loadFaceModel (constructor ⟨none, none⟩
      [⟨"S1", "Ana", "5", "N/A", "", none⟩] [] true "2024-01-01") true) "S1"
      (some [⟨[[1, 2], [3, 4]]⟩])).students :=
  have h : UniqueIds [⟨"S1", "Ana", "5", "N/A", "", none⟩] := by
    unfold UniqueIds
    decide
  ⟨h, uniqueIds_preserved (loadFaceModel (constructor ⟨none, none⟩
      [⟨"S1", "Ana", "5", "N/A", "", none⟩] [] true "2024-01-01") true)
      ⟨"Bo", "S2", "5", ""⟩ "2024-01-01T00:00:00.000Z" "S1" true "S1" true
      (some [⟨[[1, 2], [3, 4]]⟩]) h⟩

/-! ## Capture -/

/-- While `isCameraActive` is `undefined`, `captureFace` returns at its first statement. -/
theorem captureFace_of_undefined (arith : Arithmetic) (self : System)
    (estimateFaces : Option (List Prediction)) (now : Nat) (time : String)
    (h : self.isCameraActive = none) :
    captureFace arith self estimateFaces now time = self := by
  unfold captureFace
  simp [h, truthy]

/-- C8 (the code departs from the claim). After construction, model load and a successful
`startMainCamera`, the main camera is active, the frame yields the descriptor `[0, 0]` and
`findBestMatch` returns the registered student `S1`; `captureFace` still leaves the ledger empty,
because it tests `isCameraActive`, which no method assigns.  This holds whatever the rounding of
the platform. -/
theorem captureFace_marks_nothing (arith : Arithmetic) :
    (startMainCamera (loadFaceModel (constructor ⟨none, none⟩
        [⟨"S1", "Ana", "5", "N/A", "", some [0, 0]⟩] [] true "2024-01-01") true)
        true).isMainCameraActive = true ∧
    getFaceDescriptor (startMainCamera (loadFaceModel (constructor ⟨none, none⟩
        [⟨"S1", "Ana", "5", "N/A", "", some [0, 0]⟩] [] true "2024-01-01") true) true)
        (some [⟨[[0, 0]]⟩]) = some (some [0, 0]) ∧
    findBestMatch arith (startMainCamera (loadFaceModel (constructor ⟨none, none⟩
        [⟨"S1", "Ana", "5", "N/A", "", some [0, 0]⟩] [] true "2024-01-01") true) true).students
        [0, 0] = some ⟨"S1", "Ana", "5", "N/A", "", some [0, 0]⟩ ∧
    (captureFace arith (startMainCamera (loadFaceModel (constructor ⟨none, none⟩
        [⟨"S1", "Ana", "5", "N/A", "", some [0, 0]⟩] [] true "2024-01-01") true) true)
        (some [⟨[[0, 0]]⟩]) 1 "09:00").attendance = [] := by
  refine ⟨rfl, rfl, ?_, ?_⟩
  · simp [startMainCamera, loadFaceModel, constructor, showStatus, findBestMatch,
      findBestMatch.loop, findBestMatch.step, calculateDistance, operandAt, Number.sub,
      Number.square, Number.add, Number.sqrt, threshold, Number.lt, List.range, List.range.loop]
  · rw [captureFace_of_undefined _ _ _ _ _ rfl]
    rfl

/-! ## Reporting: the claims -/

/-- C9. The `totalCount` of `generateReport` is the roster size when the grade filter is empty
and otherwise the number of students whose grade equals the filter; replacing the ledger by any
other ledger, and the report date by any other date, does not change it. -/
theorem generateReport_totalCount (upper : String → String) (self : System) (date grade : String) :
    (generateReport upper self date grade).totalCount =
      (if grade = "" then self.students.length
       else self.students.countP (fun student => decide (student.grade = grade))) ∧
    ∀ (ledger : List AttendanceRecord) (otherDate : String),
      (generateReport upper { self with attendance := ledger } otherDate grade).totalCount
        = (generateReport upper self date grade).totalCount := by
  refine ⟨?_, fun _ _ => rfl⟩
  unfold generateReport
  by_cases hg : grade = ""
  · simp [hg]
  · simp [hg, List.countP_eq_length_filter]

theorem getStudentGrade_of_dangling (self : System) (r : AttendanceRecord)
    (hd : Dangling self.students r) : getStudentGrade self r.studentId = "N/A" := by
  unfold getStudentGrade
  have hnone : self.students.find? (fun s => decide (s.id = r.studentId)) = none := by
    rw [List.find?_eq_none]
    intro s hs
    simpa using hd s hs
  rw [hnone]

theorem find?_filter_skip (q : AttendanceRecord → Bool) (pre post : List AttendanceRecord)
    (r : AttendanceRecord) (studentId : String) (hne : r.studentId ≠ studentId) :
    ((pre ++ r :: post).filter q).find? (fun x => decide (x.studentId = studentId))
      = ((pre ++ post).filter q).find? (fun x => decide (x.studentId = studentId)) := by
  by_cases hq : q r = true
  · simp [List.filter_append, List.filter_cons, hq, List.find?_append, List.find?_cons, hne]
  · simp [List.filter_append, List.filter_cons, hq]

/-- The table ignores a dangling record of the ledger. -/
theorem rows_dangling (upper : String → String) (self : System)
    (pre post : List AttendanceRecord) (r : AttendanceRecord)
    (date grade : String) (hledger : self.attendance = pre ++ r :: post)
    (hd : Dangling self.students r) :
    (generateReport upper self date grade).rows
      = (generateReport upper { self with attendance := pre ++ post } date grade).rows := by
  unfold generateReport populateAttendanceTable filteredAttendance
  simp only [hledger]
  apply List.map_congr_left
  intro student hstudent
  have hmem : student ∈ self.students := by
    by_cases hg : grade = ""
    · simpa [hg] using hstudent
    · simp only [ne_eq, hg, not_false_eq_true, if_true] at hstudent
      exact (List.mem_filter.mp hstudent).1
  have hne : r.studentId ≠ student.id := fun heq => hd student hmem heq.symm
  have hskip := find?_filter_skip
    (fun record => decide (record.date = date) &&
      (decide (grade = "") || decide (getStudentGrade self record.studentId = grade)))
    pre post r student.id hne
  have hsame : ∀ studentId, getStudentGrade { self with attendance := pre ++ post } studentId
      = getStudentGrade self studentId := fun _ => rfl
  simp only [hsame]
  rw [hskip]

/-- With a grade filter other than the empty one and `N/A`, a dangling record does not pass the
filter of the report. -/
theorem filteredAttendance_dangling (self : System) (pre post : List AttendanceRecord)
    (r : AttendanceRecord) (date grade : String) (hledger : self.attendance = pre ++ r :: post)
    (hd : Dangling self.students r) (hg : grade ≠ "") (hna : grade ≠ "N/A") :
    filteredAttendance self date grade
      = filteredAttendance { self with attendance := pre ++ post } date grade := by
  unfold filteredAttendance
  simp only [hledger]
  have hgrade := getStudentGrade_of_dangling self r hd
  have hq : (decide (r.date = date) &&
      (decide (grade = "") || decide (getStudentGrade self r.studentId = grade))) = false := by
    rw [hgrade]
    simp [hg, Ne.symm hna]
  rw [List.filter_append, List.filter_cons_of_neg (by simpa using hq), ← List.filter_append]
  rfl

/-- Every row of the report table is the row of a student of the roster. -/
theorem rows_of_roster (upper : String → String) (self : System) (date grade : String) :
    ∀ row ∈ (generateReport upper self date grade).rows, ∃ s ∈ self.students, s.id = row.id := by
  intro row hrow
  unfold generateReport populateAttendanceTable at hrow
  obtain ⟨student, hstudent, hrow⟩ := List.mem_map.mp hrow
  have hmem : student ∈ self.students := by
    by_cases hg : grade = ""
    · simpa [hg] using hstudent
    · simp only [ne_eq, hg, not_false_eq_true, if_true] at hstudent
      exact (List.mem_filter.mp hstudent).1
  refine ⟨student, hmem, ?_⟩
  rw [← hrow]
  split <;> rfl

/-- C10 as stated fails: with the empty grade filter, the record of the unknown student `X9`
counts as present (and with the filter `N/A` as well), although the roster holds `S1` only;
without that record the count is 0. -/
theorem generateReport_counts_dangling :
    Dangling [⟨"S1", "Ana", "5", "N/A", "", none⟩] ⟨1, "X9", "2024-01-01", "present", "09:00"⟩ ∧
    (generateReport asciiUpperCase (constructor ⟨none, none⟩ [⟨"S1", "Ana", "5", "N/A", "", none⟩]
      [⟨1, "X9", "2024-01-01", "present", "09:00"⟩] true "2024-01-01")
      "2024-01-01" "").presentCount = 1 ∧
    (generateReport asciiUpperCase (constructor ⟨none, none⟩ [⟨"S1", "Ana", "5", "N/A", "", none⟩]
      [⟨1, "X9", "2024-01-01", "present", "09:00"⟩] true "2024-01-01")
      "2024-01-01" "N/A").presentCount = 1 ∧
    (generateReport asciiUpperCase (constructor ⟨none, none⟩ [⟨"S1", "Ana", "5", "N/A", "", none⟩]
      [] true "2024-01-01") "2024-01-01" "").presentCount = 0 := by
  refine ⟨?_, by decide, by decide, by decide⟩
  unfold Dangling
  decide

/-- C10, amended. A record of the ledger whose `studentId` is the id of no student produces no
row of the report table: the table is the one of the ledger without that record, and every row
belongs to a student of the roster.  When the grade filter is neither empty nor `N/A`, the
record contributes to neither `presentCount` nor `absentCount`. -/
theorem generateReport_dangling (upper : String → String) (self : System)
    (pre post : List AttendanceRecord)
    (r : AttendanceRecord) (date grade : String) (hledger : self.attendance = pre ++ r :: post)
    (hd : Dangling self.students r) :
    (generateReport upper self date grade).rows
      = (generateReport upper { self with attendance := pre ++ post } date grade).rows ∧
    (∀ row ∈ (generateReport upper self date grade).rows, ∃ s ∈ self.students, s.id = row.id) ∧
    (grade ≠ "" → grade ≠ "N/A" →
      (generateReport upper self date grade).presentCount
        = (generateReport upper { self with attendance := pre ++ post } date grade).presentCount ∧
      (generateReport upper self date grade).absentCount
        = (generateReport upper { self with attendance := pre ++ post } date
            grade).absentCount) := by
  refine ⟨rows_dangling upper self pre post r date grade hledger hd,
    rows_of_roster upper self date grade, ?_⟩
  intro hg hna
  have hfil := filteredAttendance_dangling self pre post r date grade hledger hd hg hna
  unfold generateReport
  simp only [hfil, and_self]

/-- C10 amended, on the roster that holds `S1` (grade 5) and a ledger whose only record is the
one of the unknown student `X9`, with the grade filter `5`. -/
theorem generateReport_dangling_witness :
    Dangling [⟨"S1", "Ana", "5", "N/A", "", none⟩] ⟨1, "X9", "2024-01-01", "present", "09:00"⟩ ∧
    (generateReport asciiUpperCase (constructor ⟨none, none⟩ [⟨"S1", "Ana", "5", "N/A", "", none⟩]
      [⟨1, "X9", "2024-01-01", "present", "09:00"⟩] true "2024-01-01")
      "2024-01-01" "5").presentCount
      = (generateReport asciiUpperCase { constructor ⟨none, none⟩ [⟨"S1", "Ana", "5", "N/A", "", none⟩]
          [⟨1, "X9", "2024-01-01", "present", "09:00"⟩] true "2024-01-01" with
          attendance := [] ++ [] } "2024-01-01" "5").presentCount :=
  have hd : Dangling [⟨"S1", "Ana", "5", "N/A", "", none⟩]
      ⟨1, "X9", "2024-01-01", "present", "09:00"⟩ := by
    unfold Dangling
    decide
  ⟨hd, ((generateReport_dangling asciiUpperCase (constructor ⟨none, none⟩ [⟨"S1", "Ana", "5", "N/A", "", none⟩]
      [⟨1, "X9", "2024-01-01", "present", "09:00"⟩] true "2024-01-01") [] []
      ⟨1, "X9", "2024-01-01", "present", "09:00"⟩ "2024-01-01" "5" rfl hd).2.2
      (by decide) (by decide)).1⟩

/-! ## Reporting: the table -/

theorem find?_eq_head?_filter {α : Type} (p : α → Bool) (l : List α) :
    l.find? p = (l.filter p).head? :=
  (List.filter_head? p l).symm

/-- On a text of ASCII characters `toUpperCase` does not depend on the platform. -/
theorem toUpperCase_ascii (upper : String → String) (s : String)
    (h : s.data.all (fun c => decide (c.toNat < 128)) = true) :
    toUpperCase upper s = ⟨s.data.map Char.toUpper⟩ := by
  unfold toUpperCase
  rw [if_pos h]

theorem toUpperCase_present (upper : String → String) :
    toUpperCase upper "present" = "PRESENT" := by
  rw [toUpperCase_ascii upper "present" (by decide)]
  decide

theorem toUpperCase_absent (upper : String → String) :
    toUpperCase upper "absent" = "ABSENT" := by
  rw [toUpperCase_ascii upper "absent" (by decide)]
  decide

/-- The students `populateAttendanceTable` and `exportToCSV` walk through are the students the
grade filter selects. -/
theorem studentsToShow_eq (roster : List Student) (grade : String) :
    (if grade ≠ "" then roster.filter (fun student => decide (student.grade = grade))
      else roster) = studentsInFilter roster grade := by
  unfold studentsInFilter
  by_cases hg : grade = "" <;> simp [hg]

theorem mem_of_mem_studentsInFilter (roster : List Student) (grade : String) (s : Student)
    (h : s ∈ studentsInFilter roster grade) : s ∈ roster ∧ (grade = "" ∨ s.grade = grade) := by
  unfold studentsInFilter at h
  by_cases hg : grade = ""
  · rw [if_pos hg] at h
    exact ⟨h, Or.inl hg⟩
  · rw [if_neg hg] at h
    have hm := List.mem_filter.mp h
    exact ⟨hm.1, Or.inr (by simpa using hm.2)⟩

/-- In a roster with pairwise distinct ids, looking a student up by its id finds that student. -/
theorem find?_id_of_uniqueIds (roster : List Student) (s : Student) (h : UniqueIds roster)
    (hs : s ∈ roster) : roster.find? (fun x => decide (x.id = s.id)) = some s := by
  induction roster with
  | nil => cases hs
  | cons x xs ih =>
    have hnd : x.id ∉ xs.map Student.id ∧ UniqueIds xs := by
      simpa [UniqueIds] using h
    by_cases hx : x.id = s.id
    · rcases List.mem_cons.mp hs with hsx | hsx
      · subst hsx
        simp [List.find?_cons]
      · exact absurd (List.mem_map.mpr ⟨s, hsx, hx.symm⟩) hnd.1
    · rcases List.mem_cons.mp hs with hsx | hsx
      · exact absurd (hsx ▸ rfl) hx
      · simp only [List.find?_cons, hx, decide_False]
        exact ih hnd.2 hsx

theorem getStudentGrade_of_mem (self : System) (s : Student) (h : UniqueIds self.students)
    (hs : s ∈ self.students) : getStudentGrade self s.id = s.grade := by
  unfold getStudentGrade
  rw [find?_id_of_uniqueIds self.students s h hs]

/-- The record the table shows for a student id whose grade, as `getStudentGrade` answers it,
passes the filter: the first record of the ledger for that id and the report date. -/
theorem find?_filteredAttendance (self : System) (date grade studentId : String)
    (hgrade : grade = "" ∨ getStudentGrade self studentId = grade) :
    (filteredAttendance self date grade).find? (fun r => decide (r.studentId = studentId))
      = (recordsFor self.attendance studentId date).head? := by
  unfold filteredAttendance recordsFor
  rw [List.find?_filter, ← find?_eq_head?_filter]
  congr 1
  funext r
  by_cases hr : r.studentId = studentId
  · rcases hgrade with hg | hg
    · simp [hr, hg]
    · simp [hr, hg]
  · simp [hr]

/-- Without a record for the student id and the report date, the table finds no record. -/
theorem find?_filteredAttendance_none (self : System) (date grade studentId : String)
    (hnone : recordsFor self.attendance studentId date = []) :
    (filteredAttendance self date grade).find? (fun r => decide (r.studentId = studentId))
      = none := by
  rw [List.find?_eq_none]
  intro r hr hid
  have hmem : r ∈ recordsFor self.attendance studentId date := by
    unfold filteredAttendance at hr
    unfold recordsFor
    have hf := List.mem_filter.mp hr
    refine List.mem_filter.mpr ⟨hf.1, ?_⟩
    have hdate : r.date = date := by
      have h2 := hf.2
      simp only [Bool.and_eq_true, decide_eq_true_eq] at h2
      exact h2.1
    simp only [decide_eq_true_eq] at hid
    simp [hid, hdate]
  rw [hnone] at hmem
  cases hmem

/-- The table of `generateReport`, as a map over the students the filter selects. -/
theorem generateReport_rows_eq (upper : String → String) (self : System) (date grade : String) :
    (generateReport upper self date grade).rows =
      (studentsInFilter self.students grade).map fun student =>
        match (filteredAttendance self date grade).find?
            (fun r => decide (r.studentId = student.id)) with
        | some record =>
          { id := student.id, name := student.name, grade := student.grade,
            statusClass := "status-" ++ record.status, status := toUpperCase upper record.status,
            time := record.time }
        | none =>
          { id := student.id, name := student.name, grade := student.grade,
            statusClass := "status-absent", status := "ABSENT", time := "-" } := by
  unfold generateReport populateAttendanceTable
  simp only [studentsToShow_eq]

/-- The row the table shows at the position of a student the filter selects. -/
theorem row_of_student (upper : String → String) (self : System) (date grade : String)
    (i : Nat) (s : Student) (hi : (studentsInFilter self.students grade)[i]? = some s) :
    ∃ row, (generateReport upper self date grade).rows[i]? = some row ∧
      row.id = s.id ∧ row.name = s.name ∧ row.grade = s.grade ∧
      (recordsFor self.attendance s.id date = [] → row.status = "ABSENT" ∧ row.time = "-") ∧
      (grade = "" ∨ UniqueIds self.students →
        ∀ (r : AttendanceRecord) (rest : List AttendanceRecord),
          recordsFor self.attendance s.id date = r :: rest →
          row.status = toUpperCase upper r.status ∧ row.time = r.time) := by
  rw [generateReport_rows_eq, List.getElem?_map, hi]
  refine ⟨_, rfl, ?_⟩
  have hmem := mem_of_mem_studentsInFilter self.students grade s (List.getElem?_mem hi)
  beta_reduce
  refine ⟨?_, ?_, ?_, ?_, ?_⟩
  · split <;> rfl
  · split <;> rfl
  · split <;> rfl
  · intro hnone
    rw [find?_filteredAttendance_none self date grade s.id hnone]
    exact ⟨rfl, rfl⟩
  · intro hcond r rest hrec
    have hgrade : grade = "" ∨ getStudentGrade self s.id = grade := by
      rcases hcond with hg | hu
      · exact Or.inl hg
      · rcases hmem.2 with hg | hg
        · exact Or.inl hg
        · exact Or.inr ((getStudentGrade_of_mem self s hu hmem.1).trans hg)
    rw [find?_filteredAttendance self date grade s.id hgrade, hrec]
    exact ⟨rfl, rfl⟩

theorem rows_length (upper : String → String) (self : System) (date grade : String) :
    (generateReport upper self date grade).rows.length
      = (studentsInFilter self.students grade).length := by
  rw [generateReport_rows_eq]
  simp

/-- C11 as stated fails on a roster where two students share the id `S1`: under the grade filter
`6` the student of grade 6 has a record for the report date and is still shown as absent with
time `-`, because the record is attributed to the grade of the first student with that id. -/
theorem generateReport_rows_shared_id :
    studentsInFilter [⟨"S1", "Ana", "5", "A", "", none⟩, ⟨"S1", "Bo", "6", "B", "", none⟩] "6"
      = [⟨"S1", "Bo", "6", "B", "", none⟩] ∧
    recordsFor [⟨1, "S1", "2024-01-01", "present", "09:00"⟩] "S1" "2024-01-01"
      = [⟨1, "S1", "2024-01-01", "present", "09:00"⟩] ∧
    (generateReport asciiUpperCase (constructor ⟨none, none⟩
        [⟨"S1", "Ana", "5", "A", "", none⟩, ⟨"S1", "Bo", "6", "B", "", none⟩]
        [⟨1, "S1", "2024-01-01", "present", "09:00"⟩] true "2024-01-01")
        "2024-01-01" "6").rows
      = [⟨"S1", "Bo", "6", "status-absent", "ABSENT", "-"⟩] := by
  decide

/-- C11, amended. The report table has one row per student the grade filter selects, in roster
order, carrying that student's id, name and grade.  A student with no record for the report date
is shown as `ABSENT` with time `-`.  When the filter is empty or the ids of the roster are
pairwise distinct, a student with a record for the report date shows the upper-cased status and
the time of the first such record of the ledger. -/
theorem generateReport_rows (upper : String → String) (self : System) (date grade : String) :
    (generateReport upper self date grade).rows.length
      = (studentsInFilter self.students grade).length ∧
    ∀ (i : Nat) (s : Student), (studentsInFilter self.students grade)[i]? = some s →
      ∃ row, (generateReport upper self date grade).rows[i]? = some row ∧
        row.id = s.id ∧ row.name = s.name ∧ row.grade = s.grade ∧
        (recordsFor self.attendance s.id date = [] → row.status = "ABSENT" ∧ row.time = "-") ∧
        (grade = "" ∨ UniqueIds self.students →
          ∀ (r : AttendanceRecord) (rest : List AttendanceRecord),
            recordsFor self.attendance s.id date = r :: rest →
            row.status = toUpperCase upper r.status ∧ row.time = r.time) := by
  exact ⟨rows_length upper self date grade, row_of_student upper self date grade⟩

/-- C11 amended, on a roster with the students `S1` and `S2` of grade 5 and a ledger that holds a
record of `S1` for the report date: under the filter `5` the first row is the one of `S1`, shown
with the upper-cased status and the time of that record. -/
theorem generateReport_rows_witness :
    (studentsInFilter (constructor ⟨none, none⟩
        [⟨"S1", "Ana", "5", "A", "", none⟩, ⟨"S2", "Cy", "5", "N/A", "", none⟩]
        [⟨1, "S1", "2024-01-01", "present", "09:00"⟩] true "2024-01-01").students "5")[0]?
      = some ⟨"S1", "Ana", "5", "A", "", none⟩ ∧
    ∃ row, (generateReport asciiUpperCase (constructor ⟨none, none⟩
        [⟨"S1", "Ana", "5", "A", "", none⟩, ⟨"S2", "Cy", "5", "N/A", "", none⟩]
        [⟨1, "S1", "2024-01-01", "present", "09:00"⟩] true "2024-01-01")
        "2024-01-01" "5").rows[0]? = some row ∧
      row.id = "S1" ∧ row.status = "PRESENT" ∧ row.time = "09:00" :=
  have hi : (studentsInFilter (constructor ⟨none, none⟩
        [⟨"S1", "Ana", "5", "A", "", none⟩, ⟨"S2", "Cy", "5", "N/A", "", none⟩]
        [⟨1, "S1", "2024-01-01", "present", "09:00"⟩] true "2024-01-01").students "5")[0]?
      = some ⟨"S1", "Ana", "5", "A", "", none⟩ := by
    decide
  have hu : UniqueIds (constructor ⟨none, none⟩
        [⟨"S1", "Ana", "5", "A", "", none⟩, ⟨"S2", "Cy", "5", "N/A", "", none⟩]
        [⟨1, "S1", "2024-01-01", "present", "09:00"⟩] true "2024-01-01").students := by
    unfold UniqueIds
    decide
  match (generateReport_rows asciiUpperCase (constructor ⟨none, none⟩
        [⟨"S1", "Ana", "5", "A", "", none⟩, ⟨"S2", "Cy", "5", "N/A", "", none⟩]
        [⟨1, "S1", "2024-01-01", "present", "09:00"⟩] true "2024-01-01")
        "2024-01-01" "5").2 0 _ hi with
  | ⟨row, hrow, hid, _, _, _, hshow⟩ =>
    ⟨hi, row, hrow, hid,
      (toUpperCase_present asciiUpperCase) ▸
        (hshow (Or.inr hu) ⟨1, "S1", "2024-01-01", "present", "09:00"⟩ [] (by decide)).1,
      (hshow (Or.inr hu) ⟨1, "S1", "2024-01-01", "present", "09:00"⟩ [] (by decide)).2⟩

/-! ## Loading the persistent store: the claim -/

/-- C12 as stated fails: a stored text that is not JSON makes `JSON.parse` throw, so the
construction does not complete; and the JSON text of an object, which is not an array, is kept
as the collection instead of the empty array. -/
theorem constructor_load_corrupted :
    constructor.load StoredItem.invalid StoredItem.missing = Except.error "SyntaxError" ∧
    constructor.load StoredItem.missing StoredItem.invalid = Except.error "SyntaxError" ∧
    loadCollection (StoredItem.json (Json.object [])) = Except.ok (Json.object []) ∧
    loadCollection (StoredItem.json (Json.object [])) ≠ Except.ok (Json.array []) :=
  ⟨rfl, rfl, rfl, fun h => by cases h⟩

theorem Json.truthy_eq_false_iff (value : Json) :
    value.truthy = false ↔
      value = Json.null ∨ value = Json.bool false ∨ value = Json.number 0 ∨
        value = Json.string "" := by
  cases value <;> simp [Json.truthy]

/-- C12, amended. For each key, a missing value, and the JSON text of `null`, `false`, `0` or the
empty string, load as the empty array; the JSON text of an array, like that of every other truthy
value, loads as the parsed value itself; a text that is not JSON makes the load throw; and the
construction gets past both loads exactly when neither stored text is rejected by `JSON.parse`. -/
theorem loadCollection_default :
    loadCollection StoredItem.missing = Except.ok (Json.array []) ∧
    (∀ value : Json,
      value = Json.null ∨ value = Json.bool false ∨ value = Json.number 0 ∨
        value = Json.string "" →
      loadCollection (StoredItem.json value) = Except.ok (Json.array [])) ∧
    (∀ items : List Json,
      loadCollection (StoredItem.json (Json.array items)) = Except.ok (Json.array items)) ∧
    (∀ value : Json, value.truthy = true →
      loadCollection (StoredItem.json value) = Except.ok value) ∧
    loadCollection StoredItem.invalid = Except.error "SyntaxError" ∧
    (∀ students attendance : StoredItem,
      (∃ loaded, constructor.load students attendance = Except.ok loaded) ↔
        students ≠ StoredItem.invalid ∧ attendance ≠ StoredItem.invalid) := by
  refine ⟨rfl, ?_, fun _ => rfl, ?_, rfl, ?_⟩
  · intro value hvalue
    have hfalsy := (Json.truthy_eq_false_iff value).mpr hvalue
    simp [loadCollection, jsonParseItem, hfalsy]
  · intro value hvalue
    simp [loadCollection, jsonParseItem, hvalue]
  · intro students attendance
    cases students <;> cases attendance <;>
      simp [constructor.load, loadCollection, jsonParseItem]

/-- C12 amended, on the stored text `null` for one key and a missing value for both keys. -/
theorem loadCollection_default_witness :
    loadCollection (StoredItem.json Json.null) = Except.ok (Json.array []) ∧
    ∃ loaded, constructor.load StoredItem.missing StoredItem.missing = Except.ok loaded :=
  ⟨loadCollection_default.2.1 Json.null (Or.inl rfl),
   (loadCollection_default.2.2.2.2.2 StoredItem.missing StoredItem.missing).mpr
     ⟨fun h => (by cases h), fun h => (by cases h)⟩⟩

/-! ## Export: the claim -/

theorem foldl_append_init {α : Type} (f : α → String) (l : List α) (init : String) :
    l.foldl (fun acc x => acc ++ f x) init
      = init ++ l.foldl (fun acc x => acc ++ f x) "" := by
  induction l generalizing init with
  | nil => simp
  | cons x xs ih =>
    simp only [List.foldl_cons]
    rw [ih (init ++ f x), ih ("" ++ f x), String.append_assoc]
    simp

/-- Appending one piece of text per element, as the `forEach` of `exportToCSV` does, gives the
initial text followed by the pieces in order. -/
theorem foldl_append_eq_join {α : Type} (f : α → String) (l : List α) (init : String) :
    l.foldl (fun acc x => acc ++ f x) init = init ++ String.join (l.map f) := by
  unfold String.join
  rw [List.foldl_map]
  exact foldl_append_init f l init

theorem zipWith_map_self {α β γ : Type} (f : α → β → γ) (g : α → β) (l : List α) :
    List.zipWith f l (l.map g) = l.map (fun a => f a (g a)) := by
  induction l with
  | nil => rfl
  | cons x xs ih => simp [ih]

/-- C13 as stated fails on the roster where two students share the id `S1`: under the grade
filter `6` the student `Bo` has a record for the report date, with status `present` and time
`09:00`, and the line of the CSV text says `ABSENT` and `-`. -/
theorem exportToCSV_shared_id :
    recordsFor [⟨1, "S1", "2024-01-01", "present", "09:00"⟩] "S1" "2024-01-01"
      = [⟨1, "S1", "2024-01-01", "present", "09:00"⟩] ∧
    (exportToCSV asciiUpperCase (constructor ⟨none, none⟩
        [⟨"S1", "Ana", "5", "A", "", none⟩, ⟨"S1", "Bo", "6", "B", "", none⟩]
        [⟨1, "S1", "2024-01-01", "present", "09:00"⟩] true "2024-01-01")
        "2024-01-01" "6").2.content
      = "Student ID,Name,Grade,Section,Status,Time,Date\n" ++
        "\"S1\",\"Bo\",\"6\",\"B\",\"ABSENT\",\"-\",\"2024-01-01\"\n" := by
  decide

/-- C13, amended. The text `exportToCSV` produces is the header line followed by one line per
student the grade filter selects, in roster order; each line holds the seven fields id, name,
grade, section, status, time and date between double quotes, joined by commas, with no escaping;
its status and time are those of the row of the same student in the table `generateReport`
builds for the same date and filter: `ABSENT` and `-` when the student has no record for the
report date and, when the filter is empty or the ids of the roster are pairwise distinct, the
upper-cased status and the time of the student's first record for the report date. -/
theorem exportToCSV_content (upper : String → String) (self : System) (date grade : String) :
    (exportToCSV upper self date grade).2.content =
      "Student ID,Name,Grade,Section,Status,Time,Date\n" ++
        String.join (List.zipWith
          (fun (student : Student) (row : Row) =>
            csvLine [student.id, student.name, student.grade, student.section_, row.status,
              row.time, date])
          (studentsInFilter self.students grade) (generateReport upper self date grade).rows) ∧
    (generateReport upper self date grade).rows.length
      = (studentsInFilter self.students grade).length ∧
    ∀ (i : Nat) (s : Student), (studentsInFilter self.students grade)[i]? = some s →
      ∃ row, (generateReport upper self date grade).rows[i]? = some row ∧ row.id = s.id ∧
        (recordsFor self.attendance s.id date = [] → row.status = "ABSENT" ∧ row.time = "-") ∧
        (grade = "" ∨ UniqueIds self.students →
          ∀ (r : AttendanceRecord) (rest : List AttendanceRecord),
            recordsFor self.attendance s.id date = r :: rest →
            row.status = toUpperCase upper r.status ∧ row.time = r.time) := by
  refine ⟨?_, rows_length upper self date grade, ?_⟩
  · unfold exportToCSV
    simp only [studentsToShow_eq]
    rw [foldl_append_eq_join, generateReport_rows_eq, zipWith_map_self]
    congr 2
    apply List.map_congr_left
    intro student _
    cases (filteredAttendance self date grade).find?
        (fun r => decide (r.studentId = student.id)) <;>
      simp [csvLine, String.intercalate, String.intercalate.go, String.append_assoc]
  · intro i s hi
    obtain ⟨row, hrow, hid, -, -, hnone, hsome⟩ := row_of_student upper self date grade i s hi
    exact ⟨row, hrow, hid, hnone, hsome⟩

/-- C13 amended, on a roster with the students `S1` and `S2` of grade 5 and a ledger that holds
a record of `S1` for the report date: the first student the filter `5` selects is `S1`, and its
row shows the upper-cased status and the time of that record. -/
theorem exportToCSV_content_witness :
    (studentsInFilter (constructor ⟨none, none⟩
        [⟨"S1", "Ana", "5", "A", "", none⟩, ⟨"S2", "Cy", "5", "N/A", "", none⟩]
        [⟨1, "S1", "2024-01-01", "present", "09:00"⟩] true "2024-01-01").students "5")[0]?
      = some ⟨"S1", "Ana", "5", "A", "", none⟩ ∧
    ∃ row, (generateReport asciiUpperCase (constructor ⟨none, none⟩
        [⟨"S1", "Ana", "5", "A", "", none⟩, ⟨"S2", "Cy", "5", "N/A", "", none⟩]
        [⟨1, "S1", "2024-01-01", "present", "09:00"⟩] true "2024-01-01")
        "2024-01-01" "5").rows[0]? = some row ∧ row.id = "S1" ∧
      row.status = "PRESENT" ∧ row.time = "09:00" :=
  have hi : (studentsInFilter (constructor ⟨none, none⟩
        [⟨"S1", "Ana", "5", "A", "", none⟩, ⟨"S2", "Cy", "5", "N/A", "", none⟩]
        [⟨1, "S1", "2024-01-01", "present", "09:00"⟩] true "2024-01-01").students "5")[0]?
      = some ⟨"S1", "Ana", "5", "A", "", none⟩ := by
    decide
  have hu : UniqueIds (constructor ⟨none, none⟩
        [⟨"S1", "Ana", "5", "A", "", none⟩, ⟨"S2", "Cy", "5", "N/A", "", none⟩]
        [⟨1, "S1", "2024-01-01", "present", "09:00"⟩] true "2024-01-01").students := by
    unfold UniqueIds
    decide
  match (exportToCSV_content asciiUpperCase (constructor ⟨none, none⟩
        [⟨"S1", "Ana", "5", "A", "", none⟩, ⟨"S2", "Cy", "5", "N/A", "", none⟩]
        [⟨1, "S1", "2024-01-01", "present", "09:00"⟩] true "2024-01-01")
        "2024-01-01" "5").2.2 0 _ hi with
  | ⟨row, hrow, hid, _, hshow⟩ =>
    ⟨hi, row, hrow, hid,
      (toUpperCase_present asciiUpperCase) ▸
        (hshow (Or.inr hu) ⟨1, "S1", "2024-01-01", "present", "09:00"⟩ [] (by decide)).1,
      (hshow (Or.inr hu) ⟨1, "S1", "2024-01-01", "present", "09:00"⟩ [] (by decide)).2⟩

/-! ## Reporting: counts against the table -/

theorem mem_filteredAttendance (self : System) (date grade : String) (r : AttendanceRecord)
    (h : r ∈ filteredAttendance self date grade) :
    r ∈ self.attendance ∧ r.date = date ∧
      (grade = "" ∨ getStudentGrade self r.studentId = grade) := by
  unfold filteredAttendance at h
  have hf := List.mem_filter.mp h
  have h2 := hf.2
  simp only [Bool.and_eq_true, Bool.or_eq_true, decide_eq_true_eq] at h2
  exact ⟨hf.1, h2.1, h2.2⟩

/-- Among the records that pass the filter of the report, no two are of the same student. -/
theorem filteredAttendance_studentIds_nodup (self : System) (date grade : String)
    (huniq : UniqueRecords self.attendance) :
    ((filteredAttendance self date grade).map AttendanceRecord.studentId).Nodup := by
  have hsub : (filteredAttendance self date grade).Sublist self.attendance := by
    unfold filteredAttendance
    exact List.filter_sublist _
  have hkeys : ((filteredAttendance self date grade).map AttendanceRecord.key).Nodup :=
    List.Nodup.sublist (hsub.map _) huniq
  have hmap : (filteredAttendance self date grade).map AttendanceRecord.key
      = ((filteredAttendance self date grade).map AttendanceRecord.studentId).map
          (fun studentId => (studentId, date)) := by
    rw [List.map_map]
    apply List.map_congr_left
    intro r hr
    simp [AttendanceRecord.key, (mem_filteredAttendance self date grade r hr).2.1]
  rw [hmap] at hkeys
  exact List.Nodup.of_map _ hkeys

/-- Every record that passes the filter of the report belongs to a student the filter selects,
provided ids are pairwise distinct and every record names a student of the roster. -/
theorem filteredAttendance_student (self : System) (date grade : String)
    (hids : UniqueIds self.students)
    (hknown : ∀ r ∈ self.attendance, ∃ s ∈ self.students, s.id = r.studentId)
    (r : AttendanceRecord) (hr : r ∈ filteredAttendance self date grade) :
    ∃ s ∈ studentsInFilter self.students grade, s.id = r.studentId := by
  obtain ⟨hmem, -, hgrade⟩ := mem_filteredAttendance self date grade r hr
  obtain ⟨s, hs, hid⟩ := hknown r hmem
  refine ⟨s, ?_, hid⟩
  unfold studentsInFilter
  by_cases hg : grade = ""
  · rw [if_pos hg]
    exact hs
  · rw [if_neg hg]
    refine List.mem_filter.mpr ⟨hs, ?_⟩
    rcases hgrade with hg2 | hg2
    · exact absurd hg2 hg
    · have hsg := getStudentGrade_of_mem self s hids hs
      rw [hid, hg2] at hsg
      simp [hsg]

theorem studentsInFilter_ids_nodup (roster : List Student) (grade : String)
    (hids : UniqueIds roster) : ((studentsInFilter roster grade).map Student.id).Nodup := by
  unfold studentsInFilter
  by_cases hg : grade = ""
  · rw [if_pos hg]
    exact hids
  · rw [if_neg hg]
    exact List.Nodup.sublist (List.Sublist.map _ (List.filter_sublist _)) hids

theorem generateReport_totalCount_eq (upper : String → String) (self : System)
    (date grade : String) :
    (generateReport upper self date grade).totalCount
      = (studentsInFilter self.students grade).length := by
  unfold generateReport studentsInFilter
  by_cases hg : grade = "" <;> simp [hg]

/-- Under the hypotheses of the count claim, a student the filter selects is shown as `PRESENT`
exactly when a record that passes the filter and has the status `present` carries its id. -/
theorem row_present_iff (upper : String → String) (self : System) (date grade : String)
    (huniq : UniqueRecords self.attendance)
    (hstatus : ∀ r ∈ self.attendance, r.status = "present" ∨ r.status = "absent")
    (s : Student) :
    (match (filteredAttendance self date grade).find?
        (fun r => decide (r.studentId = s.id)) with
      | some record => toUpperCase upper record.status
      | none => "ABSENT") = "PRESENT" ↔
    s.id ∈ ((filteredAttendance self date grade).filter
      (fun record => decide (record.status = "present"))).map AttendanceRecord.studentId := by
  have hinj := List.inj_on_of_nodup_map
    (filteredAttendance_studentIds_nodup self date grade huniq)
  cases hfind : (filteredAttendance self date grade).find?
      (fun r => decide (r.studentId = s.id)) with
  | none =>
    simp only
    constructor
    · intro h
      exact absurd h (by decide)
    · intro h
      obtain ⟨r, hr, hid⟩ := List.mem_map.mp h
      have hnone := List.find?_eq_none.mp hfind r (List.mem_filter.mp hr).1
      exact absurd (by simpa using hid) hnone
  | some r0 =>
    simp only
    have hr0 : r0 ∈ filteredAttendance self date grade := List.mem_of_find?_eq_some hfind
    have hid0 : r0.studentId = s.id := by simpa using List.find?_some hfind
    rcases hstatus r0 (mem_filteredAttendance self date grade r0 hr0).1 with hp | ha
    · rw [hp, toUpperCase_present upper]
      refine ⟨fun _ => ?_, fun _ => rfl⟩
      exact List.mem_map.mpr ⟨r0, List.mem_filter.mpr ⟨hr0, by simp [hp]⟩, hid0⟩
    · rw [ha, toUpperCase_absent upper]
      constructor
      · intro h
        exact absurd h (by decide)
      · intro h
        obtain ⟨r, hr, hid⟩ := List.mem_map.mp h
        have hrF := (List.mem_filter.mp hr).1
        have hrp : r.status = "present" := by simpa using (List.mem_filter.mp hr).2
        have heq : r = r0 := hinj hrF hr0 (hid.trans hid0.symm)
        rw [heq, ha] at hrp
        exact absurd hrp (by decide)

/-- When every status of the ledger is `present` or `absent`, every row of the table is shown as
`PRESENT` or as `ABSENT`. -/
theorem row_status_cases (upper : String → String) (self : System) (date grade : String)
    (hstatus : ∀ r ∈ self.attendance, r.status = "present" ∨ r.status = "absent") :
    ∀ row ∈ (generateReport upper self date grade).rows,
      row.status = "PRESENT" ∨ row.status = "ABSENT" := by
  intro row hrow
  rw [generateReport_rows_eq] at hrow
  obtain ⟨s, -, hrow⟩ := List.mem_map.mp hrow
  subst hrow
  cases hfind : (filteredAttendance self date grade).find?
      (fun r => decide (r.studentId = s.id)) with
  | none => exact Or.inr rfl
  | some r0 =>
    have hr0 : r0 ∈ filteredAttendance self date grade := List.mem_of_find?_eq_some hfind
    rcases hstatus r0 (mem_filteredAttendance self date grade r0 hr0).1 with hp | ha
    · exact Or.inl (by simp only [hp, toUpperCase_present upper])
    · exact Or.inr (by simp only [ha, toUpperCase_absent upper])

/-- C14. On a roster with pairwise distinct ids and a ledger whose records all name a student of
the roster, hold at most one record per (studentId, date) and carry the status `present` or
`absent`: `presentCount + absentCount` is at most `totalCount`, `presentCount` is the number of
rows shown as `PRESENT`, and `totalCount - presentCount` is the number of rows shown as
`ABSENT`. -/
theorem generateReport_counts (upper : String → String) (self : System) (date grade : String)
    (hids : UniqueIds self.students)
    (hknown : ∀ r ∈ self.attendance, ∃ s ∈ self.students, s.id = r.studentId)
    (huniq : UniqueRecords self.attendance)
    (hstatus : ∀ r ∈ self.attendance, r.status = "present" ∨ r.status = "absent") :
    (generateReport upper self date grade).presentCount
        + (generateReport upper self date grade).absentCount
      ≤ (generateReport upper self date grade).totalCount ∧
    (generateReport upper self date grade).presentCount
      = (generateReport upper self date grade).rows.countP
          (fun row => decide (row.status = "PRESENT")) ∧
    (generateReport upper self date grade).totalCount
        - (generateReport upper self date grade).presentCount
      = (generateReport upper self date grade).rows.countP
          (fun row => decide (row.status = "ABSENT")) := by
  have hP : (generateReport upper self date grade).presentCount
      = ((filteredAttendance self date grade).filter
          (fun record => decide (record.status = "present"))).length := rfl
  have hA : (generateReport upper self date grade).absentCount
      = ((filteredAttendance self date grade).filter
          (fun record => decide (record.status = "absent"))).length := rfl
  have hT := generateReport_totalCount_eq upper self date grade
  have hFnd := filteredAttendance_studentIds_nodup self date grade huniq
  have hSnd := studentsInFilter_ids_nodup self.students grade hids
  have hsubset : (filteredAttendance self date grade).map AttendanceRecord.studentId
      ⊆ (studentsInFilter self.students grade).map Student.id := by
    intro x hx
    obtain ⟨r, hr, rfl⟩ := List.mem_map.mp hx
    obtain ⟨s, hs, hid⟩ := filteredAttendance_student self date grade hids hknown r hr
    exact List.mem_map.mpr ⟨s, hs, hid⟩
  -- the records that pass the filter are at most as many as the students selected
  have hlenF : (filteredAttendance self date grade).length
      ≤ (studentsInFilter self.students grade).length := by
    have := (List.subperm_of_subset hFnd hsubset).length_le
    simpa using this
  have hPA : ((filteredAttendance self date grade).filter
        (fun record => decide (record.status = "present"))).length
      + ((filteredAttendance self date grade).filter
        (fun record => decide (record.status = "absent"))).length
      ≤ (filteredAttendance self date grade).length := by
    rw [← List.countP_eq_length_filter, ← List.countP_eq_length_filter,
      List.length_eq_countP_add_countP (fun record => decide (record.status = "present"))
        (filteredAttendance self date grade)]
    apply Nat.add_le_add_left
    apply List.countP_mono_left
    intro r _ h
    simp only [decide_eq_true_eq] at h
    simp [h]
  -- the rows shown as PRESENT are as many as the records with status present
  have hAnd : (((filteredAttendance self date grade).filter
      (fun record => decide (record.status = "present"))).map
        AttendanceRecord.studentId).Nodup :=
    List.Nodup.sublist (List.Sublist.map _ (List.filter_sublist _)) hFnd
  have hrows : (generateReport upper self date grade).rows.countP
        (fun row => decide (row.status = "PRESENT"))
      = ((filteredAttendance self date grade).filter
          (fun record => decide (record.status = "present"))).length := by
    rw [generateReport_rows_eq, List.countP_map]
    have hcongr := List.countP_congr
      (l := studentsInFilter self.students grade)
      (p := (fun (row : Row) => decide (row.status = "PRESENT")) ∘ fun student =>
        match (filteredAttendance self date grade).find?
            (fun r => decide (r.studentId = student.id)) with
        | some record =>
          { id := student.id, name := student.name, grade := student.grade,
            statusClass := "status-" ++ record.status, status := toUpperCase upper record.status,
            time := record.time }
        | none =>
          { id := student.id, name := student.name, grade := student.grade,
            statusClass := "status-absent", status := "ABSENT", time := "-" })
      (q := fun s => decide (s.id ∈ ((filteredAttendance self date grade).filter
        (fun record => decide (record.status = "present"))).map AttendanceRecord.studentId))
      (by
        intro s _
        have h := row_present_iff upper self date grade huniq hstatus s
        simp only [Function.comp, decide_eq_true_eq]
        cases hfind : (filteredAttendance self date grade).find?
            (fun r => decide (r.studentId = s.id)) with
        | none => rw [hfind] at h; exact h
        | some r0 => rw [hfind] at h; exact h)
    rw [hcongr]
    have hmap : List.countP (fun s => decide (s.id ∈ ((filteredAttendance self date grade).filter
          (fun record => decide (record.status = "present"))).map AttendanceRecord.studentId))
          (studentsInFilter self.students grade)
        = List.countP (fun studentId => decide (studentId ∈
            ((filteredAttendance self date grade).filter
              (fun record => decide (record.status = "present"))).map
                AttendanceRecord.studentId))
          ((studentsInFilter self.students grade).map Student.id) := by
      rw [List.countP_map]
      rfl
    rw [hmap, List.countP_eq_length_filter]
    have hperm := (List.perm_ext_iff_of_nodup
      (hSnd.filter (fun studentId => decide (studentId ∈
        ((filteredAttendance self date grade).filter
          (fun record => decide (record.status = "present"))).map
            AttendanceRecord.studentId))) hAnd).mpr (by
      intro x
      simp only [List.mem_filter, decide_eq_true_eq]
      constructor
      · exact fun h => h.2
      · intro hx
        refine ⟨hsubset ?_, hx⟩
        obtain ⟨r, hr, hid⟩ := List.mem_map.mp hx
        exact List.mem_map.mpr ⟨r, (List.mem_filter.mp hr).1, hid⟩)
    rw [hperm.length_eq, List.length_map]
  -- every row is shown as PRESENT or as ABSENT
  have hlenRows : (generateReport upper self date grade).rows.length
      = (studentsInFilter self.students grade).length := by
    rw [generateReport_rows_eq]
    simp
  have hsplit := List.length_eq_countP_add_countP
    (fun (row : Row) => decide (row.status = "PRESENT")) (generateReport upper self date grade).rows
  have hneg : (generateReport upper self date grade).rows.countP
        (fun row => decide ¬ (decide (row.status = "PRESENT")) = true)
      = (generateReport upper self date grade).rows.countP
        (fun row => decide (row.status = "ABSENT")) := by
    apply List.countP_congr
    intro row hrow
    rcases row_status_cases upper self date grade hstatus row hrow with h | h
    · simp [h]
    · simp [h]
  refine ⟨?_, ?_, ?_⟩
  · rw [hP, hA, hT]
    exact le_trans hPA hlenF
  · rw [hrows, hP]
  · rw [hneg] at hsplit
    rw [hT, ← hlenRows, hP, ← hrows]
    omega

/-- C14, on a roster with the students `S1` and `S2` of grade 5 and a ledger that holds the
record of `S1`, present, for the report date. -/
theorem generateReport_counts_witness :
    UniqueIds (constructor ⟨none, none⟩
        [⟨"S1", "Ana", "5", "A", "", none⟩, ⟨"S2", "Cy", "5", "N/A", "", none⟩]
        [⟨1, "S1", "2024-01-01", "present", "09:00"⟩] true "2024-01-01").students ∧
    (∀ r ∈ (constructor ⟨none, none⟩
        [⟨"S1", "Ana", "5", "A", "", none⟩, ⟨"S2", "Cy", "5", "N/A", "", none⟩]
        [⟨1, "S1", "2024-01-01", "present", "09:00"⟩] true "2024-01-01").attendance, ∃ s ∈ (constructor ⟨none, none⟩
        [⟨"S1", "Ana", "5", "A", "", none⟩, ⟨"S2", "Cy", "5", "N/A", "", none⟩]
        [⟨1, "S1", "2024-01-01", "present", "09:00"⟩] true "2024-01-01").students, s.id = r.studentId) ∧
    UniqueRecords (constructor ⟨none, none⟩
        [⟨"S1", "Ana", "5", "A", "", none⟩, ⟨"S2", "Cy", "5", "N/A", "", none⟩]
        [⟨1, "S1", "2024-01-01", "present", "09:00"⟩] true "2024-01-01").attendance ∧
    (∀ r ∈ (constructor ⟨none, none⟩
        [⟨"S1", "Ana", "5", "A", "", none⟩, ⟨"S2", "Cy", "5", "N/A", "", none⟩]
        [⟨1, "S1", "2024-01-01", "present", "09:00"⟩] true "2024-01-01").attendance, r.status = "present" ∨ r.status = "absent") ∧
    (generateReport asciiUpperCase (constructor ⟨none, none⟩
        [⟨"S1", "Ana", "5", "A", "", none⟩, ⟨"S2", "Cy", "5", "N/A", "", none⟩]
        [⟨1, "S1", "2024-01-01", "present", "09:00"⟩] true "2024-01-01") "2024-01-01" "5").presentCount
        + (generateReport asciiUpperCase (constructor ⟨none, none⟩
        [⟨"S1", "Ana", "5", "A", "", none⟩, ⟨"S2", "Cy", "5", "N/A", "", none⟩]
        [⟨1, "S1", "2024-01-01", "present", "09:00"⟩] true "2024-01-01") "2024-01-01" "5").absentCount
      ≤ (generateReport asciiUpperCase (constructor ⟨none, none⟩
        [⟨"S1", "Ana", "5", "A", "", none⟩, ⟨"S2", "Cy", "5", "N/A", "", none⟩]
        [⟨1, "S1", "2024-01-01", "present", "09:00"⟩] true "2024-01-01") "2024-01-01" "5").totalCount ∧
    (generateReport asciiUpperCase (constructor ⟨none, none⟩
        [⟨"S1", "Ana", "5", "A", "", none⟩, ⟨"S2", "Cy", "5", "N/A", "", none⟩]
        [⟨1, "S1", "2024-01-01", "present", "09:00"⟩] true "2024-01-01") "2024-01-01" "5").presentCount
      = (generateReport asciiUpperCase (constructor ⟨none, none⟩
        [⟨"S1", "Ana", "5", "A", "", none⟩, ⟨"S2", "Cy", "5", "N/A", "", none⟩]
        [⟨1, "S1", "2024-01-01", "present", "09:00"⟩] true "2024-01-01") "2024-01-01" "5").rows.countP
          (fun row => decide (row.status = "PRESENT")) ∧
    (generateReport asciiUpperCase (constructor ⟨none, none⟩
        [⟨"S1", "Ana", "5", "A", "", none⟩, ⟨"S2", "Cy", "5", "N/A", "", none⟩]
        [⟨1, "S1", "2024-01-01", "present", "09:00"⟩] true "2024-01-01") "2024-01-01" "5").totalCount
        - (generateReport asciiUpperCase (constructor ⟨none, none⟩
        [⟨"S1", "Ana", "5", "A", "", none⟩, ⟨"S2", "Cy", "5", "N/A", "", none⟩]
        [⟨1, "S1", "2024-01-01", "present", "09:00"⟩] true "2024-01-01") "2024-01-01" "5").presentCount
      = (generateReport asciiUpperCase (constructor ⟨none, none⟩
        [⟨"S1", "Ana", "5", "A", "", none⟩, ⟨"S2", "Cy", "5", "N/A", "", none⟩]
        [⟨1, "S1", "2024-01-01", "present", "09:00"⟩] true "2024-01-01") "2024-01-01" "5").rows.countP
          (fun row => decide (row.status = "ABSENT")) :=
  have hids : UniqueIds (constructor ⟨none, none⟩
        [⟨"S1", "Ana", "5", "A", "", none⟩, ⟨"S2", "Cy", "5", "N/A", "", none⟩]
        [⟨1, "S1", "2024-01-01", "present", "09:00"⟩] true "2024-01-01").students := by
    unfold UniqueIds
    decide
  have hknown : ∀ r ∈ (constructor ⟨none, none⟩
        [⟨"S1", "Ana", "5", "A", "", none⟩, ⟨"S2", "Cy", "5", "N/A", "", none⟩]
        [⟨1, "S1", "2024-01-01", "present", "09:00"⟩] true "2024-01-01").attendance, ∃ s ∈ (constructor ⟨none, none⟩
        [⟨"S1", "Ana", "5", "A", "", none⟩, ⟨"S2", "Cy", "5", "N/A", "", none⟩]
        [⟨1, "S1", "2024-01-01", "present", "09:00"⟩] true "2024-01-01").students, s.id = r.studentId := by
    decide
  have huniq : UniqueRecords (constructor ⟨none, none⟩
        [⟨"S1", "Ana", "5", "A", "", none⟩, ⟨"S2", "Cy", "5", "N/A", "", none⟩]
        [⟨1, "S1", "2024-01-01", "present", "09:00"⟩] true "2024-01-01").attendance := by
    unfold UniqueRecords
    decide
  have hstatus : ∀ r ∈ (constructor ⟨none, none⟩
        [⟨"S1", "Ana", "5", "A", "", none⟩, ⟨"S2", "Cy", "5", "N/A", "", none⟩]
        [⟨1, "S1", "2024-01-01", "present", "09:00"⟩] true "2024-01-01").attendance, r.status = "present" ∨ r.status = "absent" := by
    decide
  ⟨hids, hknown, huniq, hstatus,
    generateReport_counts asciiUpperCase (constructor ⟨none, none⟩
        [⟨"S1", "Ana", "5", "A", "", none⟩, ⟨"S2", "Cy", "5", "N/A", "", none⟩]
        [⟨1, "S1", "2024-01-01", "present", "09:00"⟩] true "2024-01-01") "2024-01-01" "5" hids hknown huniq hstatus⟩

end FacialRecognition
